import Mathlib

/-!
Verification of the Document_ocr repository (Flask front end `app.py` plus the
four-stage LLM prompt-chain pipeline and PDF renderer in `secondary.py`).

The Python code is shallowly embedded: pure string manipulation (regex
substitutions, stripping, splitting, the balanced-brace JSON scanner, the
line-classification of the PDF renderer) is translated into executable Lean
functions; the two genuinely external library primitives — `json.loads` and
`json.dumps` — are passed in as function parameters (`parse : String → Option
Json`, `dumps : Json → String`), and the hosted LLM is an oracle `Nat → String`
giving the reply to the n-th request of a run.  Stateful code (the Flask
`upload` and `download` routes) becomes pure functions from a request, a
session and a disk state to an outcome that records the HTTP status, the event
trace and the resulting session/disk.
-/

namespace DocumentOcr

/-! ## Python string primitives -/

/-- The characters Python's `str.strip()` and the regex class `\s` treat as
whitespace (restricted to the ASCII range, which is all this code base uses). -/
def pyIsSpace (c : Char) : Bool :=
  c = ' ' || c = '\t' || c = '\n' || c = '\r' || c = '\x0b' || c = '\x0c'

/-- Python `str.strip()`: drop leading and trailing whitespace. -/
def pyStrip (s : String) : String :=
  (((s.toList.dropWhile pyIsSpace).reverse.dropWhile pyIsSpace).reverse).asString

/-- Whether `needle` is a prefix of `hay`. -/
def hasPrefixL (needle hay : List Char) : Bool :=
  decide (hay.take needle.length = needle)

/-- Whether `needle` occurs contiguously inside `hay`. -/
def hasInfixL (needle hay : List Char) : Bool :=
  match hay with
  | [] => needle.isEmpty
  | c :: cs => hasPrefixL needle (c :: cs) || hasInfixL needle cs

/-- Python `needle in hay` on strings: substring containment. -/
def strContains (hay needle : String) : Bool :=
  hasInfixL needle.toList hay.toList

/-- Python `str.upper()` (ASCII). -/
def pyUpper (s : String) : String := (s.toList.map Char.toUpper).asString

/-- Python `str.lower()` (ASCII). -/
def pyLower (s : String) : String := (s.toList.map Char.toLower).asString

/-- Python `text[:500]`. -/
def take500 (s : String) : String := (s.toList.take 500).asString

/-! ## JSON values

`json.loads` itself is the Python standard library and is kept abstract: the
pipeline is parameterised over `parse : String → Option Json` (`none` models a
raised `json.JSONDecodeError`).  `Json` is the shape of the values it can
return — note that `json.loads` may well return a non-object (list, string,
number), the Python type hints notwithstanding. -/

inductive Json where
  | null : Json
  | bool (b : Bool) : Json
  | num (n : Int) : Json
  | str (s : String) : Json
  | arr (elems : List Json) : Json
  | obj (fields : List (String × Json)) : Json
  deriving Repr

/-- Lookup of a key in a JSON object's field list (Python `dict` keys are
unique; first occurrence wins). -/
def jsonLookup (fields : List (String × Json)) (key : String) : Option Json :=
  match fields with
  | [] => none
  | (k, v) :: rest => if k = key then some v else jsonLookup rest key

/-- Python truthiness of a JSON value: `None`, `False`, `0`, `""`, `[]` and
`{}` are falsy, everything else truthy. -/
def jsonTruthy : Json → Bool
  | .null => false
  | .bool b => b
  | .num n => !(n = 0)
  | .str s => !(s = "")
  | .arr xs => !(xs.isEmpty)
  | .obj fs => !(fs.isEmpty)

/-- Outcome of evaluating the f-string fragment `{diff:,.2f}` on a JSON
value: numbers format fine (booleans are ints in Python, so they format
too); a string raises `ValueError` ("Unknown format code 'f' for object of
type 'str'"); `None`, lists and objects raise `TypeError` ("unsupported
format string passed to …`.__format__`"). -/
inductive FmtOutcome where
  | ok : FmtOutcome
  | valueError : FmtOutcome
  | typeError : FmtOutcome
  deriving Repr, DecidableEq

/-- `format(diff, ',.2f')` as used by the f-string at secondary.py line 340. -/
def formatFixed2 : Json → FmtOutcome
  | .num _ => .ok
  | .bool _ => .ok
  | .str _ => .valueError
  | .null => .typeError
  | .arr _ => .typeError
  | .obj _ => .typeError

/-- Whether Python `len()` is defined on the value: strings, lists and
objects are sized; numbers, booleans and `None` raise `TypeError`. -/
def jsonHasLen : Json → Bool
  | .str _ => true
  | .arr _ => true
  | .obj _ => true
  | _ => false

/-! ## `_extract_json` (secondary.py lines 32–84)

The markdown-fence stripping is `re.sub(r'```json\s*|\s*```', '', text,
flags=re.IGNORECASE)`.  The regex engine scans left to right; at each position
it first tries the branch "literal ```json then greedy `\s*`", then the branch
"greedy `\s*` then literal ```" (since a backtick is not whitespace, the only
way the second branch matches is a maximal whitespace run followed directly by
three backticks).  Matches are removed and scanning resumes after them. -/

/-- Drop the literal prefix `pre` from `l`, or fail. -/
def dropPre (pre : String) (l : List Char) : Option (List Char) :=
  if l.take pre.length = pre.toList then some (l.drop pre.length) else none

/-- Drop the prefix `pre` from `l` comparing case-insensitively, or fail. -/
def dropPreCI (pre : String) (l : List Char) : Option (List Char) :=
  if (l.take pre.length).map Char.toLower = pre.toList then some (l.drop pre.length)
  else none

/-- Regex branch 1 at the current position: "```json" (case-insensitive)
followed by a greedy run of whitespace.  Returns the rest of the input. -/
def matchFenceJson (l : List Char) : Option (List Char) :=
  (dropPreCI "```json" l).map (·.dropWhile pyIsSpace)

/-- Regex branch 2 at the current position: a greedy run of whitespace followed
by "```".  Returns the rest of the input. -/
def matchWsFence (l : List Char) : Option (List Char) :=
  dropPre "```" (l.dropWhile pyIsSpace)

theorem length_dropWhile_le (p : Char → Bool) (l : List Char) :
    (l.dropWhile p).length ≤ l.length := by
  induction l with
  | nil => simp
  | cons c cs ih =>
    simp only [List.dropWhile]
    split
    · exact Nat.le_succ_of_le ih
    · simp

theorem dropPre_length_lt {pre : String} {l rest : List Char}
    (hpre : 0 < pre.length) (h : dropPre pre l = some rest) :
    rest.length < l.length := by
  unfold dropPre at h
  split at h
  · next heq =>
    cases h
    have h1 : (l.take pre.length).length = pre.toList.length := by rw [heq]
    have h2 : pre.toList.length = pre.length := rfl
    simp only [List.length_take] at h1
    simp only [List.length_drop]
    omega
  · cases h

theorem dropPreCI_length_lt {pre : String} {l rest : List Char}
    (hpre : 0 < pre.length) (h : dropPreCI pre l = some rest) :
    rest.length < l.length := by
  unfold dropPreCI at h
  split at h
  · next heq =>
    cases h
    have h1 : ((l.take pre.length).map Char.toLower).length = pre.toList.length := by
      rw [heq]
    have h2 : pre.toList.length = pre.length := rfl
    simp only [List.length_map, List.length_take] at h1
    simp only [List.length_drop]
    omega
  · cases h

theorem matchFenceJson_length_lt {l rest : List Char}
    (h : matchFenceJson l = some rest) : rest.length < l.length := by
  unfold matchFenceJson at h
  cases hd : dropPreCI "```json" l with
  | none => rw [hd] at h; cases h
  | some r =>
    rw [hd] at h
    cases h
    calc (r.dropWhile pyIsSpace).length ≤ r.length := length_dropWhile_le pyIsSpace r
      _ < l.length := dropPreCI_length_lt (by decide) hd

theorem matchWsFence_length_lt {l rest : List Char}
    (h : matchWsFence l = some rest) : rest.length < l.length := by
  unfold matchWsFence at h
  have h1 : rest.length < (l.dropWhile pyIsSpace).length :=
    dropPre_length_lt (by decide) h
  calc rest.length < (l.dropWhile pyIsSpace).length := h1
    _ ≤ l.length := length_dropWhile_le pyIsSpace l

/-! A left-to-right `re.sub` pass is a scan: at each position try the pattern;
on a match emit the replacement and resume after the match, otherwise copy one
character.  `scanGo` is that scan, structurally recursive on a fuel argument
(each step consumes at least one character, so fuel = input length is always
enough — `scanGo_fuel_irrelevant` below makes the fuel irrelevance precise). -/

/-- Generic rewriting scan.  `step l` returns `some (out, rest)` when the
pattern matches at the head of `l`: `out` is the replacement text and `rest`
the input after the matched region. -/
def scanGo (step : List Char → Option (List Char × List Char)) :
    Nat → List Char → List Char
  | _, [] => []
  | 0, l => l
  | fuel + 1, c :: cs =>
    match step (c :: cs) with
    | some (out, rest) => out ++ scanGo step fuel rest
    | none => c :: scanGo step fuel cs

/-- A step function that consumes at least one character makes the fuel
irrelevant as soon as it is at least the input length. -/
theorem scanGo_fuel_irrelevant (step : List Char → Option (List Char × List Char))
    (hstep : ∀ l out rest, step l = some (out, rest) → rest.length < l.length) :
    ∀ f1 f2 l, l.length ≤ f1 → l.length ≤ f2 → scanGo step f1 l = scanGo step f2 l := by
  intro f1
  induction f1 with
  | zero =>
    intro f2 l h1 _
    have : l = [] := List.length_eq_zero.mp (Nat.le_zero.mp h1)
    subst this
    cases f2 <;> simp [scanGo]
  | succ a ih =>
    intro f2 l h1 h2
    match l with
    | [] => cases f2 <;> simp [scanGo]
    | c :: cs =>
      match f2 with
      | 0 => simp at h2
      | b + 1 =>
        simp only [scanGo]
        cases hs : step (c :: cs) with
        | none =>
          have hlen : cs.length ≤ a := by simp at h1; omega
          have hlen2 : cs.length ≤ b := by simp at h2; omega
          show c :: scanGo step a cs = c :: scanGo step b cs
          rw [ih b cs hlen hlen2]
        | some pr =>
          obtain ⟨out, rest⟩ := pr
          have hlt := hstep (c :: cs) out rest hs
          have hlen : rest.length ≤ a := by simp at hlt h1; omega
          have hlen2 : rest.length ≤ b := by simp at hlt h2; omega
          show out ++ scanGo step a rest = out ++ scanGo step b rest
          rw [ih b rest hlen hlen2]

/-- Step of `re.sub(r'```json\s*|\s*```', '', ·, flags=re.IGNORECASE)`:
branch 1 (literal ```json then greedy whitespace) is preferred over branch 2
(greedy whitespace then literal ```); the replacement is empty. -/
def stripFencesStep (l : List Char) : Option (List Char × List Char) :=
  match matchFenceJson l with
  | some rest => some ([], rest)
  | none =>
    match matchWsFence l with
    | some rest => some ([], rest)
    | none => none

theorem stripFencesStep_shrinks :
    ∀ l out rest, stripFencesStep l = some (out, rest) → rest.length < l.length := by
  intro l out rest h
  unfold stripFencesStep at h
  cases h1 : matchFenceJson l with
  | some r =>
    rw [h1] at h
    cases h
    exact matchFenceJson_length_lt h1
  | none =>
    rw [h1] at h
    cases h2 : matchWsFence l with
    | some r =>
      rw [h2] at h
      cases h
      exact matchWsFence_length_lt h2
    | none => rw [h2] at h; cases h

/-- `re.sub(r'```json\s*|\s*```', '', text, flags=re.IGNORECASE)`. -/
def stripFences (s : String) : String :=
  (scanGo stripFencesStep s.toList.length s.toList).asString

/-- Step of attempt 3's `re.sub(r',(\s*[}\]])', r'\1', ·)`: a comma followed
by (greedy) whitespace and a closing brace or bracket is replaced by the
whitespace and the brace/bracket (the comma is dropped); scanning resumes
after the brace/bracket. -/
def fixCommasStep (l : List Char) : Option (List Char × List Char) :=
  match l with
  | c :: cs =>
    match cs.dropWhile pyIsSpace with
    | b :: rest =>
      if c = ',' && (b = '}' || b = ']') then some (cs.takeWhile pyIsSpace ++ [b], rest)
      else none
    | [] => none
  | [] => none

theorem fixCommasStep_shrinks :
    ∀ l out rest, fixCommasStep l = some (out, rest) → rest.length < l.length := by
  intro l out rest h
  match l with
  | [] => simp [fixCommasStep] at h
  | c :: cs =>
    simp only [fixCommasStep] at h
    cases hr : cs.dropWhile pyIsSpace with
    | nil => rw [hr] at h; simp at h
    | cons b r =>
      rw [hr] at h
      split at h
      · rename_i b2 r2 heq
        cases heq
        split at h
        · cases h
          have h1 := length_dropWhile_le pyIsSpace cs
          rw [hr] at h1
          simp only [List.length_cons] at h1 ⊢
          omega
        · cases h
      · rename_i heq
        cases h

/-- `re.sub(r',(\s*[}\]])', r'\1', text)`. -/
def fixCommas (s : String) : String :=
  (scanGo fixCommasStep s.toList.length s.toList).asString

/-- The balanced-brace scanner of attempt 2 (secondary.py lines 44–73),
started at the first `'{'`.  State: brace depth, inside-string flag, the
escape flag, and the number of characters consumed so far.  Returns the
length of the region from the start through the brace closing depth to 0. -/
def braceScan : List Char → Int → Bool → Bool → Nat → Option Nat
  | [], _, _, _, _ => none
  | c :: cs, count, inStr, esc, i =>
    if esc then braceScan cs count inStr false (i + 1)
    else if c = '\\' then braceScan cs count inStr true (i + 1)
    else if c = '"' then braceScan cs count (!inStr) esc (i + 1)
    else if !inStr then
      if c = '{' then braceScan cs (count + 1) inStr esc (i + 1)
      else if c = '}' then
        if count - 1 = 0 then some (i + 1)
        else braceScan cs (count - 1) inStr esc (i + 1)
      else braceScan cs count inStr esc (i + 1)
    else braceScan cs count inStr esc (i + 1)

/-- Attempt 2's candidate substring: `text[start:i+1]` where `start =
text.find('{')` and `i` is the index where the brace count returns to zero,
or `none` when there is no `'{'` or the braces never balance. -/
def braceCandidate (text : String) : Option String :=
  let cs := text.toList
  let rest := cs.dropWhile (fun c => !(c = '{'))
  match rest with
  | [] => none
  | _ :: _ =>
    match braceScan rest 0 false false 0 with
    | some n => some ((rest.take n).asString)
    | none => none

/-- The error message of the final `raise ValueError` (secondary.py line 84),
as a function of the fence-stripped, stripped text. -/
def extractJsonErrMsg (t : String) : String :=
  "Failed to extract valid JSON. Preview: " ++ take500 t ++ "..."

/-- `_extract_json` (secondary.py lines 32–84).  `parse` models `json.loads`
(`none` = `JSONDecodeError`).  `Except.error` models the trailing
`raise ValueError`. -/
def _extract_json (parse : String → Option Json) (text : String) : Except String Json :=
  let t := pyStrip (stripFences text)
  match parse t with
  | some j => .ok j
  | none =>
    match (braceCandidate t).bind parse with
    | some j => .ok j
    | none =>
      match parse (fixCommas t) with
      | some j => .ok j
      | none => .error (extractJsonErrMsg t)

/-- The three parsing strategies of `_extract_json`, in source order, all
applied to the fence-stripped and stripped input: direct parse, parse of the
balanced-brace substring, parse after removing trailing commas. -/
def extractJsonStrategies (parse : String → Option Json) (text : String) :
    List (Option Json) :=
  let t := pyStrip (stripFences text)
  [parse t, (braceCandidate t).bind parse, parse (fixCommas t)]

/-- First successful strategy of a list of attempts. -/
def firstSome : List (Option Json) → Option Json
  | [] => none
  | some j :: _ => some j
  | none :: rest => firstSome rest

/-! ## `_cleanup_formatting` (secondary.py lines 464–473) -/

/-- Step of Python `str.replace(needle, rep)`: at a position where `needle`
(non-empty) is a prefix, emit `rep` and resume after the occurrence
(left-to-right, non-overlapping, exactly Python's semantics). -/
def replaceStep (needle rep : List Char) (l : List Char) :
    Option (List Char × List Char) :=
  if needle.length ≠ 0 && hasPrefixL needle l then some (rep, l.drop needle.length)
  else none

theorem replaceStep_shrinks (needle rep : List Char) :
    ∀ l out rest, replaceStep needle rep l = some (out, rest) →
      rest.length < l.length := by
  intro l out rest h
  unfold replaceStep at h
  split at h
  · next hc =>
    cases h
    simp only [Bool.and_eq_true, decide_eq_true_eq, hasPrefixL] at hc
    obtain ⟨hne, hpre⟩ := hc
    have hlen : (l.take needle.length).length = needle.length := by rw [hpre]
    simp only [List.length_take] at hlen
    simp only [List.length_drop]
    omega
  · cases h

/-- Python `s.replace(needle, rep)` for a non-empty `needle`. -/
def pyReplace (s needle rep : String) : String :=
  (scanGo (replaceStep needle.toList rep.toList) s.toList.length s.toList).asString

/-- Step of `re.sub(r'```[a-z]*\n?', '', ·, flags=re.IGNORECASE)`: literal
```, then a greedy run of ASCII letters, then (greedy) at most one newline. -/
def stripLangFencesStep (l : List Char) : Option (List Char × List Char) :=
  match dropPre "```" l with
  | none => none
  | some r =>
    match r.dropWhile Char.isAlpha with
    | c :: r3 => if c = '\n' then some ([], r3) else some ([], c :: r3)
    | [] => some ([], [])

theorem stripLangFencesStep_shrinks :
    ∀ l out rest, stripLangFencesStep l = some (out, rest) →
      rest.length < l.length := by
  intro l out rest h
  unfold stripLangFencesStep at h
  cases hd : dropPre "```" l with
  | none => rw [hd] at h; cases h
  | some r =>
    rw [hd] at h
    dsimp only at h
    have hr : r.length < l.length := dropPre_length_lt (by decide) hd
    have hdw : (r.dropWhile Char.isAlpha).length ≤ r.length :=
      length_dropWhile_le Char.isAlpha r
    cases hw : r.dropWhile Char.isAlpha with
    | nil =>
      rw [hw] at h
      cases h
      simp only [List.length_nil]
      omega
    | cons c r3 =>
      rw [hw] at h
      rw [hw] at hdw
      simp only [List.length_cons] at hdw
      dsimp only at h
      by_cases hc : c = '\n'
      · rw [if_pos hc] at h
        cases h
        omega
      · rw [if_neg hc] at h
        cases h
        simp only [List.length_cons]
        omega

/-- `re.sub(r'```[a-z]*\n?', '', text, flags=re.IGNORECASE)`. -/
def stripLangFences (s : String) : String :=
  (scanGo stripLangFencesStep s.toList.length s.toList).asString

/-- Step of `re.sub(r'\n{3,}', '\n\n', ·)`: a maximal run of at least three
newlines is replaced by exactly two. -/
def collapseNlStep (l : List Char) : Option (List Char × List Char) :=
  match l with
  | c :: cs =>
    if c = '\n' && 2 ≤ (cs.takeWhile (fun x => x = '\n')).length then
      some (['\n', '\n'], cs.dropWhile (fun x => x = '\n'))
    else none
  | [] => none

theorem collapseNlStep_shrinks :
    ∀ l out rest, collapseNlStep l = some (out, rest) → rest.length < l.length := by
  intro l out rest h
  match l with
  | [] => simp [collapseNlStep] at h
  | c :: cs =>
    simp only [collapseNlStep] at h
    split at h
    · cases h
      have h1 := length_dropWhile_le (fun x => x = '\n') cs
      simp only [List.length_cons]
      omega
    · cases h

/-- `_cleanup_formatting` (secondary.py lines 464–473): strip code-fence
markers, delete markdown characters in the order `**`, `*`, `|`, `###`, `##`,
`#`, collapse runs of three or more newlines to two, and strip. -/
def _cleanup_formatting (text : String) : String :=
  let t := stripLangFences text
  let t := pyReplace t "**" ""
  let t := pyReplace t "*" ""
  let t := pyReplace t "|" ""
  let t := pyReplace t "###" ""
  let t := pyReplace t "##" ""
  let t := pyReplace t "#" ""
  let t := (scanGo collapseNlStep t.toList.length t.toList).asString
  pyStrip t

/-! ## The four-stage pipeline (secondary.py lines 87–507)

The hosted LLM is modelled as an oracle `oracle : Nat → String` giving the raw
text content of the reply to the n-th `client.messages.create` call of a run
(calls are numbered 0,1,2,… in the order they are issued).  `json.dumps` is
the Python standard library and is passed in abstractly: `dumps0` models
`json.dumps(·)` as used in phase 2 and `dumpsI` models
`json.dumps(·, indent=2, ensure_ascii=False)` as used in phases 3 and 4.
A `ModelCall` records one request: the model name, `max_tokens`, the attached
PDF documents and the text part of the user message.  (All four calls use
`temperature=0`; the `cache_control` annotations and the base64 transport
encoding of the PDF bytes carry no information and are elided — a document is
represented by its byte content.) -/

/-- The fixed prompt text of phase 1 (secondary.py lines 133-145). -/
def analyze_prompt_text : String :=
  "Analyze these financial documents. Return ONLY valid JSON:\n\n\x7b\n    \"company_name\": \"exact name\",\n    \"balance_sheet_date\": \"DD/MM/YYYY\",\n    \"fiscal_year\": \"YYYY\",\n    \"document_pages\": 10,\n    \"contains_stato_patrimoniale\": true,\n    \"contains_conto_economico\": true,\n    \"contains_nota_integrativa\": true,\n    \"currency\": \"EUR\",\n    \"document_quality\": \"clear\"\n\x7d"

/-- Prefix of the phase-2 f-string prompt, up to `json.dumps(doc_summary)` (secondary.py line 176). -/
def extract_prompt_pre : String :=
  "Extract ALL financial data from documents. Info: "

/-- Suffix of the phase-2 f-string prompt, after `json.dumps(doc_summary)` (secondary.py lines 176-279). -/
def extract_prompt_post : String :=
  "\n\nReturn ONLY valid JSON (no markdown):\n\n\x7b\n    \"metadata\": \x7b\n        \"company_name\": \"\",\n        \"balance_sheet_date\": \"\",\n        \"fiscal_year\": \"\"\n    \x7d,\n    \"stato_patrimoniale_attivo\": \x7b\n        \"A_crediti_soci\": \x7b\"value\": 0, \"details\": \x7b\x7d\x7d,\n        \"B_immobilizzazioni\": \x7b\n            \"I_immateriali\": \x7b\"items\": \x7b\x7d, \"totale\": 0\x7d,\n            \"II_materiali\": \x7b\"costo_storico\": 0, \"fondo_ammortamento\": 0, \"valore_netto\": 0, \"items\": \x7b\x7d\x7d,\n            \"III_finanziarie\": \x7b\"items\": \x7b\x7d, \"totale\": 0\x7d,\n            \"totale_immobilizzazioni\": 0\n        \x7d,\n        \"C_attivo_circolante\": \x7b\n            \"I_rimanenze\": \x7b\"items\": \x7b\x7d, \"totale\": 0\x7d,\n            \"II_crediti\": \x7b\"entro_12_mesi\": \x7b\x7d, \"oltre_12_mesi\": \x7b\x7d, \"totale\": 0\x7d,\n            \"III_attivita_finanziarie\": \x7b\"items\": \x7b\x7d, \"totale\": 0\x7d,\n            \"IV_disponibilita_liquide\": \x7b\"items\": \x7b\x7d, \"totale\": 0\x7d,\n            \"totale_attivo_circolante\": 0\n        \x7d,\n        \"D_ratei_risconti\": \x7b\"items\": \x7b\x7d, \"totale\": 0\x7d,\n        \"TOTALE_ATTIVO\": 0\n    \x7d,\n    \"stato_patrimoniale_passivo\": \x7b\n        \"A_patrimonio_netto\": \x7b\n            \"I_capitale_sociale\": 0,\n            \"II_riserva_sovrapprezzo\": 0,\n            \"III_riserve_rivalutazione\": 0,\n            \"IV_riserva_legale\": 0,\n            \"V_riserve_statutarie\": 0,\n            \"VI_riserva_azioni_proprie\": 0,\n            \"VII_altre_riserve\": \x7b\x7d,\n            \"VIII_utili_perdite_portati_a_nuovo\": 0,\n            \"IX_utile_perdita_esercizio\": 0,\n            \"totale_patrimonio_netto\": 0\n        \x7d,\n        \"B_fondi_rischi_oneri\": \x7b\"items\": \x7b\x7d, \"totale\": 0\x7d,\n        \"C_trattamento_fine_rapporto\": 0,\n        \"D_debiti\": \x7b\"entro_12_mesi\": \x7b\x7d, \"oltre_12_mesi\": \x7b\x7d, \"totale\": 0\x7d,\n        \"E_ratei_risconti\": \x7b\"items\": \x7b\x7d, \"totale\": 0\x7d,\n        \"TOTALE_PASSIVO\": 0\n    \x7d,\n    \"conto_economico\": \x7b\n        \"A_valore_produzione\": \x7b\n            \"1_ricavi_vendite\": 0,\n            \"2_variazioni_rimanenze\": 0,\n            \"3_variazioni_lavori_in_corso\": 0,\n            \"4_incrementi_immobilizzazioni\": 0,\n            \"5_altri_ricavi\": \x7b\x7d,\n            \"totale_A\": 0\n        \x7d,\n        \"B_costi_produzione\": \x7b\n            \"6_materie_prime\": 0,\n            \"7_servizi\": 0,\n            \"8_godimento_beni_terzi\": 0,\n            \"9_personale\": \x7b\x7d,\n            \"10_ammortamenti_svalutazioni\": \x7b\x7d,\n            \"11_variazioni_rimanenze\": 0,\n            \"12_accantonamenti\": 0,\n            \"13_altri_accantonamenti\": 0,\n            \"14_oneri_diversi_gestione\": 0,\n            \"totale_B\": 0\n        \x7d,\n        \"differenza_A_B\": 0,\n        \"C_proventi_oneri_finanziari\": \x7b\n            \"15_proventi_partecipazioni\": 0,\n            \"16_altri_proventi_finanziari\": \x7b\x7d,\n            \"17_interessi_oneri_finanziari\": \x7b\x7d,\n            \"17bis_utili_perdite_cambio\": 0,\n            \"totale_C\": 0\n        \x7d,\n        \"D_rettifiche_valore\": \x7b\n            \"18_rivalutazioni\": 0,\n            \"19_svalutazioni\": 0,\n            \"totale_D\": 0\n        \x7d,\n        \"risultato_prima_imposte\": 0,\n        \"20_imposte_reddito\": \x7b\"correnti\": 0, \"differite\": 0, \"anticipate\": 0, \"totale\": 0\x7d,\n        \"21_utile_perdita_esercizio\": 0\n    \x7d,\n    \"nota_integrativa\": \x7b\n        \"criteri_valutazione\": \"\",\n        \"immobilizzazioni_immateriali\": \"\",\n        \"immobilizzazioni_materiali\": \"\",\n        \"immobilizzazioni_finanziarie\": \"\",\n        \"rimanenze\": \"\",\n        \"crediti\": \"\",\n        \"debiti\": \"\",\n        \"ratei_risconti\": \"\",\n        \"patrimonio_netto\": \"\",\n        \"fondi_rischi\": \"\",\n        \"trattamento_fine_rapporto\": \"\",\n        \"ricavi_costi\": \"\",\n        \"imposte\": \"\",\n        \"altre_informazioni\": \"\"\n    \x7d\n\x7d\n\nExtract exact numbers. Use 0 if not found. NO trailing commas."

/-- Prefix of the phase-3 f-string prompt (secondary.py line 306). -/
def validate_prompt_pre : String :=
  "Validate and correct calculations:\n\n"

/-- Suffix of the phase-3 f-string prompt (secondary.py lines 308-328). -/
def validate_prompt_post : String :=
  "\n\nTASKS:\n1. Calculate missing subtotals\n2. Verify TOTALE_ATTIVO = TOTALE_PASSIVO\n3. Verify differenza_A_B = totale_A - totale_B\n4. Verify risultato_prima_imposte\n5. Verify utile_perdita_esercizio\n\nReturn ONLY valid JSON:\n\n\x7b\n    \"is_balanced\": true,\n    \"balance_difference\": 0,\n    \"corrections_made\": [],\n    \"corrected_data\": \x7b\n        ...same structure...\n    \x7d\n\x7d\n\nNO trailing commas. NO markdown."

/-- Prefix of the phase-4 f-string prompt (secondary.py line 366). -/
def format_prompt_pre : String :=
  "Format as Italian balance sheet in PLAIN TEXT:\n\n"

/-- Suffix of the phase-4 f-string prompt (secondary.py lines 368-454). -/
def format_prompt_post : String :=
  "\n\nStructure:\n\nBILANCIO D'ESERCIZIO AL [date]\n[Company Name]\n\nSTATO PATRIMONIALE - ATTIVO\n\nA) CREDITI VERSO SOCI: € X,XXX\nB) IMMOBILIZZAZIONI\n  I - Immobilizzazioni immateriali: € X,XXX\n  II - Immobilizzazioni materiali\n      Costo storico: € X,XXX\n      Fondo ammortamento: € (X,XXX)\n      Valore netto: € X,XXX\n  III - Immobilizzazioni finanziarie: € X,XXX\n  TOTALE IMMOBILIZZAZIONI (B): € X,XXX\n\nC) ATTIVO CIRCOLANTE\n  I - Rimanenze: € X,XXX\n  II - Crediti (entro 12 mesi): € X,XXX\n  III - Attività finanziarie: € X,XXX\n  IV - Disponibilità liquide: € X,XXX\n  TOTALE ATTIVO CIRCOLANTE (C): € X,XXX\n\nD) RATEI E RISCONTI: € X,XXX\n\nTOTALE ATTIVO: € X,XXX\n\n\nSTATO PATRIMONIALE - PASSIVO\n\nA) PATRIMONIO NETTO\n  I - Capitale sociale: € X,XXX\n  IV - Riserva legale: € X,XXX\n  VII - Altre riserve: € X,XXX\n  VIII - Utili (perdite) portati a nuovo: € X,XXX\n  IX - Utile (perdita) dell'esercizio: € X,XXX\n  TOTALE PATRIMONIO NETTO (A): € X,XXX\n\nB) FONDI PER RISCHI E ONERI: € X,XXX\nC) TRATTAMENTO FINE RAPPORTO: € X,XXX\nD) DEBITI (entro 12 mesi): € X,XXX\nE) RATEI E RISCONTI: € X,XXX\n\nTOTALE PASSIVO: € X,XXX\n\n\nCONTO ECONOMICO\n\nA) VALORE DELLA PRODUZIONE\n   1) Ricavi delle vendite: € X,XXX\n   5) Altri ricavi: € X,XXX\n   TOTALE (A): € X,XXX\n\nB) COSTI DELLA PRODUZIONE\n   6) Materie prime: € X,XXX\n   7) Servizi: € X,XXX\n   9) Personale: € X,XXX\n   10) Ammortamenti: € X,XXX\n   14) Oneri diversi: € X,XXX\n   TOTALE (B): € X,XXX\n\nDIFFERENZA (A-B): € X,XXX\n\nC) PROVENTI E ONERI FINANZIARI: € X,XXX\nD) RETTIFICHE DI VALORE: € X,XXX\n\nRISULTATO PRIMA DELLE IMPOSTE: € X,XXX\n20) Imposte: € X,XXX\n\nUTILE (PERDITA) DELL'ESERCIZIO: € X,XXX\n\n\nNOTA INTEGRATIVA\n\n[Paragraphs from nota_integrativa]\n\nRULES:\n- Plain text, NO markdown\n- € before amounts\n- Comma separator (€ 10,000)\n- Negatives: € (X,XXX)\n- 2-space indent\n- Skip zeros\n- \"entro 12 mesi\" for short-term"


/-- A PDF document attached to a model request, represented by its content. -/
abbrev Document := String

/-- One `client.messages.create` request. -/
structure ModelCall where
  model : String
  maxTokens : Nat
  docs : List Document
  promptText : String
  deriving Repr, DecidableEq

/-- The Python exceptions this code can raise. -/
inductive PyErr where
  | valueError (msg : String) : PyErr
  | fileNotFoundError (msg : String) : PyErr
  | attributeError : PyErr
  | typeError : PyErr
  deriving Repr, DecidableEq

/-- Split a character list at every occurrence of `sep` (Python
`str.split(sep)` for a single-character separator: `splitOnChar sep "" =
[""]`, empty pieces are kept). -/
def splitOnChar (sep : Char) (cs : List Char) : List (List Char) :=
  match cs with
  | [] => [[]]
  | c :: rest =>
    let r := splitOnChar sep rest
    if c = sep then [] :: r
    else
      match r with
      | h :: t => (c :: h) :: t
      | [] => [[c]]

/-- Python `s.split(sep)` for a one-character separator. -/
def pySplit (sep : Char) (s : String) : List String :=
  (splitOnChar sep s.toList).map List.asString

/-- `pathlib.PurePath.name`: the final path component (everything after the
last `/`). -/
def pathName (p : String) : String :=
  ((p.toList.reverse.takeWhile (fun c => !(c = '/'))).reverse).asString

/-- `pathlib.PurePath.suffix`: `name[i:]` where `i` is the index of the last
dot in the final component, provided `0 < i < len(name) - 1`, else `""`. -/
def pathSuffix (p : String) : String :=
  let name := (pathName p).toList
  match (name.reverse.findIdx? (fun c => c = '.')) with
  | none => ""
  | some irev =>
    let i := name.length - 1 - irev
    if 0 < i && i < name.length - 1 then (name.drop i).asString else ""

/-- `_load_documents` (secondary.py lines 87–118).  `fs` models the file
system (`none` = the path does not exist).  Returns the loaded documents (or
the first raised exception) together with the list of files actually opened
and read, in order; the loop stops at the first failing file. -/
def _load_documents (fs : String → Option String) (filepaths : List String) :
    Except PyErr (List Document) × List String :=
  match filepaths with
  | [] => (.ok [], [])
  | fp :: rest =>
    match fs fp with
    | none => (.error (.fileNotFoundError ("PDF file not found: " ++ fp)), [])
    | some content =>
      if pyLower (pathSuffix fp) ≠ ".pdf" then
        (.error (.valueError ("File must be a PDF, got: " ++ pathSuffix fp)), [])
      else
        match _load_documents fs rest with
        | (.ok docs, reads) => (.ok (content :: docs), fp :: reads)
        | (.error e, reads) => (.error e, fp :: reads)

/-- Phase 1, `_analyze_documents` (secondary.py lines 121–160): one Haiku call
with the documents and the fixed analysis prompt; the stripped reply is run
through `_extract_json`, falling back to `{"document_quality": "unknown"}`
when that raises. -/
def _analyze_documents (oracle : Nat → String) (parse : String → Option Json)
    (k : Nat) (pdf_documents : List Document) : Json × List ModelCall :=
  let call : ModelCall :=
    { model := "claude-haiku-4-5", maxTokens := 1500,
      docs := pdf_documents, promptText := analyze_prompt_text }
  let summary_text := pyStrip (oracle k)
  let doc_summary :=
    match _extract_json parse summary_text with
    | .ok j => j
    | .error _ => Json.obj [("document_quality", Json.str "unknown")]
  (doc_summary, [call])

/-- Phase 2, `_extract_financial_data` (secondary.py lines 163–293): one
Sonnet call with the documents and the extraction prompt built around
`json.dumps(doc_summary)`; the stripped reply is run through `_extract_json`
and a failure re-raises the `ValueError`. -/
def _extract_financial_data (oracle : Nat → String) (parse : String → Option Json)
    (dumps0 : Json → String) (k : Nat) (pdf_documents : List Document)
    (doc_summary : Json) : Except PyErr Json × List ModelCall :=
  let call : ModelCall :=
    { model := "claude-sonnet-4-5", maxTokens := 7000,
      docs := pdf_documents,
      promptText := extract_prompt_pre ++ dumps0 doc_summary ++ extract_prompt_post }
  let data_text := pyStrip (oracle k)
  let result : Except PyErr Json :=
    match _extract_json parse data_text with
    | .ok j => .ok j
    | .error e => .error (.valueError e)
  (result, [call])

/-- Phase 3, `_validate_and_calculate` (secondary.py lines 296–353): one Haiku
call (no documents) with the validation prompt built around
`json.dumps(extracted_data, indent=2, ensure_ascii=False)`.  The whole body
after the call sits in `try … except ValueError`, and the diagnostic prints
inside the `try` can themselves raise:

* `_extract_json` raising `ValueError` is caught and `extracted_data` is
  returned;
* a non-object reply makes `validation_result.get` raise `AttributeError`
  (line 338), which is not caught;
* when `is_balanced` is falsy, the f-string `f"…€{diff:,.2f}"` (line 340) on
  `balance_difference` (default `0`) raises `ValueError` for a string —
  caught, so `extracted_data` is returned even when `corrected_data` exists —
  and `TypeError` for `None`/lists/objects, which is not caught;
* a truthy `corrections_made` (default `[]`) without `len()` (a number or
  boolean, line 346) raises an uncaught `TypeError`;
* otherwise `validation_result.get("corrected_data", extracted_data)` is
  returned (line 348). -/
def _validate_and_calculate (oracle : Nat → String) (parse : String → Option Json)
    (dumpsI : Json → String) (k : Nat) (extracted_data : Json) :
    Except PyErr Json × List ModelCall :=
  let call : ModelCall :=
    { model := "claude-haiku-4-5", maxTokens := 6000,
      docs := [],
      promptText := validate_prompt_pre ++ dumpsI extracted_data ++ validate_prompt_post }
  let result_text := pyStrip (oracle k)
  let result : Except PyErr Json :=
    match _extract_json parse result_text with
    | .error _ => .ok extracted_data
    | .ok validation_result =>
      match validation_result with
      | .obj fields =>
        let is_balanced := (jsonLookup fields "is_balanced").getD (Json.bool false)
        let fmt :=
          if !(jsonTruthy is_balanced) then
            formatFixed2 ((jsonLookup fields "balance_difference").getD (Json.num 0))
          else FmtOutcome.ok
        match fmt with
        | .typeError => .error .typeError
        | .valueError => .ok extracted_data
        | .ok =>
          let corrections := (jsonLookup fields "corrections_made").getD (Json.arr [])
          if jsonTruthy corrections && !(jsonHasLen corrections) then
            .error .typeError
          else
            .ok ((jsonLookup fields "corrected_data").getD extracted_data)
      | _ => .error .attributeError
  (result, [call])

/-- Phase 4, `_format_balance_sheet` (secondary.py lines 356–461): one Haiku
call (no documents) with the formatting prompt built around
`json.dumps(validated_data, indent=2, ensure_ascii=False)`; returns the
stripped reply text. -/
def _format_balance_sheet (oracle : Nat → String) (dumpsI : Json → String)
    (k : Nat) (validated_data : Json) : String × List ModelCall :=
  let call : ModelCall :=
    { model := "claude-haiku-4-5", maxTokens := 6000,
      docs := [],
      promptText := format_prompt_pre ++ dumpsI validated_data ++ format_prompt_post }
  (pyStrip (oracle k), [call])

/-- `get_api_key` (secondary.py lines 16–29).  `env` is the result of the
environment/key-file lookup (`none` = neither source has a key). -/
def get_api_key (env : Option String) : Except PyErr String :=
  match env with
  | some k => .ok k
  | none => .error (.valueError
      "API key not found. Set ANTHROPIC_API_KEY or create anthropic_api_key.txt")

/-- The observable outcome of one `generate_balance_sheet` run: the returned
string or the raised exception, the model calls issued in order, and the
files read in order. -/
structure RunResult where
  result : Except PyErr String
  calls : List ModelCall
  reads : List String
  deriving Repr

/-- `generate_balance_sheet` (secondary.py lines 476–507): reject more than 5
files, resolve the API key, load the documents, then run the four phases in
sequence, and return the cleaned-up phase-4 text. -/
def generate_balance_sheet (fs : String → Option String) (oracle : Nat → String)
    (parse : String → Option Json) (dumps0 dumpsI : Json → String)
    (env : Option String) (api_key : Option String)
    (filepaths : List String) : RunResult :=
  if filepaths.length > 5 then
    { result := .error (.valueError
        ("Maximum 5 files allowed, got " ++ toString filepaths.length)),
      calls := [], reads := [] }
  else
    match (match api_key with
           | some q => .ok q
           | none => get_api_key env : Except PyErr String) with
    | .error e => { result := .error e, calls := [], reads := [] }
    | .ok _ =>
      let ld := _load_documents fs filepaths
      let reads := ld.2
      match ld.1 with
      | .error e => { result := .error e, calls := [], reads := reads }
      | .ok docs =>
        let doc_summary := (_analyze_documents oracle parse 0 docs).1
        let c1 := (_analyze_documents oracle parse 0 docs).2
        let ex := _extract_financial_data oracle parse dumps0 1 docs doc_summary
        match ex.1 with
        | .error e => { result := .error e, calls := c1 ++ ex.2, reads := reads }
        | .ok extracted_data =>
          let va := _validate_and_calculate oracle parse dumpsI 2 extracted_data
          match va.1 with
          | .error e =>
            { result := .error e, calls := c1 ++ ex.2 ++ va.2, reads := reads }
          | .ok validated_data =>
            let fo := _format_balance_sheet oracle dumpsI 3 validated_data
            { result := .ok (_cleanup_formatting fo.1),
              calls := c1 ++ ex.2 ++ va.2 ++ fo.2, reads := reads }

/-! ## The PDF renderer's line classifier (secondary.py lines 677–770)

`create_pdf` walks the lines of the final formatted text: `parse_financial_data`
classifies each stripped non-empty line by the current section (switched by the
four header substrings) and keeps it for that section's table when it is a
note line or matches the financial-line heuristic; `create_financial_table`
then turns the first 30 kept lines of a financial section that contain `€`
into table rows. -/

/-- The four buckets built by `parse_financial_data`. -/
structure Sections where
  attivo : List String
  passivo : List String
  conto_economico : List String
  note : List String
  deriving Repr, DecidableEq

/-- Names of the four buckets. -/
inductive SectionName where
  | attivo : SectionName
  | passivo : SectionName
  | conto_economico : SectionName
  | note : SectionName
  deriving Repr, DecidableEq

/-- Section switching (secondary.py lines 695–706): the first of the four
header substrings contained in the upper-cased line wins, in source order. -/
def sectionHeaderOf (line : String) : Option SectionName :=
  let u := pyUpper line
  if strContains u "STATO PATRIMONIALE - ATTIVO" then some .attivo
  else if strContains u "STATO PATRIMONIALE - PASSIVO" then some .passivo
  else if strContains u "CONTO ECONOMICO" then some .conto_economico
  else if strContains u "NOTA INTEGRATIVA" then some .note
  else none

/-- The financial-line heuristic (secondary.py line 710):
`'€' in line or any(x in line for x in [')', '-', 'I)', 'II)', 'III)'])`. -/
def financialKeep (line : String) : Bool :=
  strContains line "€" || (strContains line ")" || strContains line "-" ||
    strContains line "I)" || strContains line "II)" || strContains line "III)")

/-- Append a kept line to its bucket (`sections[current_section].append`). -/
def appendToSection (s : Sections) (name : SectionName) (line : String) : Sections :=
  match name with
  | .attivo => { s with attivo := s.attivo ++ [line] }
  | .passivo => { s with passivo := s.passivo ++ [line] }
  | .conto_economico => { s with conto_economico := s.conto_economico ++ [line] }
  | .note => { s with note := s.note ++ [line] }

/-- The loop body of `parse_financial_data` (secondary.py lines 689–713) as a
left fold over the lines, carrying the current section and the buckets. -/
def parseLinesAux (lines : List String) (cur : Option SectionName) (acc : Sections) :
    Sections :=
  match lines with
  | [] => acc
  | l :: rest =>
    let line := pyStrip l
    if line = "" then parseLinesAux rest cur acc
    else
      match sectionHeaderOf line with
      | some name => parseLinesAux rest (some name) acc
      | none =>
        match cur with
        | some name =>
          if name ≠ SectionName.note then
            if financialKeep line then parseLinesAux rest cur (appendToSection acc name line)
            else parseLinesAux rest cur acc
          else parseLinesAux rest cur (appendToSection acc .note line)
        | none => parseLinesAux rest cur acc

/-- `parse_financial_data` (secondary.py lines 677–715). -/
def parse_financial_data (text_content : String) : Sections :=
  parseLinesAux (pySplit '\n' text_content) none ⟨[], [], [], []⟩

/-- The rows of the table built by `create_financial_table` (secondary.py
lines 724–739) from a section's kept lines: of the first 30 lines, those
containing `€` are split at the first `€` into a cleaned description and an
amount. -/
def create_financial_table_rows (data : List String) : List (String × String) :=
  (data.take 30).filterMap (fun line =>
    if strContains line "€" then
      match pySplit '€' line with
      | p0 :: p1 :: _ =>
        some (pyStrip (pyReplace (pyReplace (pyStrip p0) "**" "") "*" ""),
              "€ " ++ pyStrip p1)
      | _ => none
    else none)

/-! ## The Flask front end (app.py)

The routes are embedded as pure functions of the request, the session cookie
contents, and the disk (a finite map from full path strings to file contents,
represented as an association list).  Randomness (`secrets.token_hex`,
`secrets.token_urlsafe`) and `werkzeug.secure_filename` are passed in as
parameters.  `upload` additionally records the ordered trace of its checks
and file-system effects. -/

/-- One uploaded file of the multipart request. -/
structure UpFile where
  filename : String
  size : Nat
  content : String
  deriving Repr, DecidableEq

/-- The parts of a POST /upload request the route reads.  `files = none`
models `'files' not in request.files`. -/
structure UploadRequest where
  csrf_token : Option String
  files : Option (List UpFile)
  deriving Repr, DecidableEq

/-- The session cookie fields this application uses. -/
structure Session where
  csrf_token : Option String
  session_id : Option String
  output_file : Option String
  deriving Repr, DecidableEq

/-- Python truthiness of an optional string (`None` and `''` are falsy). -/
def pyTruthyStr (o : Option String) : Bool :=
  match o with
  | some s => !(s = "")
  | none => false

/-- `ALLOWED_EXTENSIONS = {'pdf'}` (app.py line 29). -/
def ALLOWED_EXTENSIONS : List String := ["pdf"]

/-- `MAX_FILES = 5` (app.py line 30). -/
def MAX_FILES : Nat := 5

/-- `MAX_FILE_SIZE = 10 * 1024 * 1024` (app.py line 31). -/
def MAX_FILE_SIZE : Nat := 10 * 1024 * 1024

/-- The extension after the last dot: `filename.rsplit('.', 1)[1]`. -/
def extAfterLastDot (filename : String) : String :=
  ((filename.toList.reverse.takeWhile (fun c => !(c = '.'))).reverse).asString

/-- `allowed_file` (app.py lines 85–87). -/
def allowed_file (filename : String) : Bool :=
  strContains filename "." && ALLOWED_EXTENSIONS.contains (pyLower (extAfterLastDot filename))

/-- `validate_csrf_token` (app.py lines 112–114): `token ==
session.get('csrf_token')` — Python `None == None` is `True`, mirrored by
equality of options. -/
def validate_csrf_token (sess : Session) (token : Option String) : Bool :=
  token = sess.csrf_token

/-- Events of one `upload` request, in execution order. -/
inductive Ev where
  | checkCsrf : Ev
  | checkFilesPresent : Ev
  | checkCount : Ev
  | checkType (filename : String) : Ev
  | checkSize (filename : String) : Ev
  | saveUpload (path : String) : Ev
  | checkApiKey : Ev
  | pipelineCall : Ev
  | writePdf (path : String) : Ev
  | writeTxt (path : String) : Ev
  | storeOutputFile : Ev
  | regenCsrf : Ev
  | removeUpload (path : String) : Ev
  deriving Repr, DecidableEq

/-- Look a path up on the disk (first matching entry). -/
def diskLookup : List (String × String) → String → Option String
  | [], _ => none
  | e :: rest, p => if e.1 = p then some e.2 else diskLookup rest p

/-- Write (create or overwrite) a file. -/
def diskWrite (disk : List (String × String)) (p c : String) : List (String × String) :=
  (disk.filter (fun e => !(e.1 = p))) ++ [(p, c)]

/-- Remove a file. -/
def diskRemove (disk : List (String × String)) (p : String) : List (String × String) :=
  disk.filter (fun e => !(e.1 = p))

/-- The observable outcome of one POST /upload request. -/
structure UploadOutcome where
  status : Nat
  events : List Ev
  session : Session
  disk : List (String × String)
  downloadUrl : Option String
  deriving Repr, DecidableEq

/-- Result of the per-file loop: whether every file passed validation, the
disk afterwards, the saved paths in order, and the event trace. -/
structure LoopOut where
  ok : Bool
  disk : List (String × String)
  saved : List String
  events : List Ev
  deriving Repr, DecidableEq

/-- The per-file loop of `upload` (app.py lines 176–214): for each file in
order, validate its type, validate its size, then save it under
`uploads/<session_id>_<secure_filename(name)>`.  Returns whether all files
passed, the disk, the saved paths and the event trace; on a failed check the
route returns 400 immediately, leaving the files saved so far on disk. -/
def uploadLoop (secure_filename : String → String) (session_id : String) :
    List UpFile → List (String × String) → List String → List Ev → LoopOut
  | [], disk, saved, evs => ⟨true, disk, saved, evs⟩
  | f :: rest, disk, saved, evs =>
    let evs := evs ++ [Ev.checkType f.filename]
    if !(allowed_file f.filename) then ⟨false, disk, saved, evs⟩
    else
      let evs := evs ++ [Ev.checkSize f.filename]
      if f.size > MAX_FILE_SIZE then ⟨false, disk, saved, evs⟩
      else
        let path := "uploads/" ++ session_id ++ "_" ++ secure_filename f.filename
        uploadLoop secure_filename session_id rest (diskWrite disk path f.content)
          (saved ++ [path]) (evs ++ [Ev.saveUpload path])

/-- The cleanup loop of `upload` (app.py lines 270–274): remove each saved
file that still exists. -/
def cleanupLoop : List String → List (String × String) → List Ev →
    List (String × String) × List Ev
  | [], disk, evs => (disk, evs)
  | p :: rest, disk, evs =>
    match diskLookup disk p with
    | some _ => cleanupLoop rest (diskRemove disk p) (evs ++ [Ev.removeUpload p])
    | none => cleanupLoop rest disk evs

/-- The POST /upload route (app.py lines 128–310).  `fresh_sid` and
`fresh_csrf` are the values `secrets.token_hex(16)` / `generate_csrf_token`
would produce when needed; `env` is `os.getenv('ANTHROPIC_API_KEY')` (as
populated at startup from the environment or the key file). -/
def upload (secure_filename : String → String) (oracle : Nat → String)
    (parse : String → Option Json) (dumps0 dumpsI : Json → String)
    (env : Option String) (fresh_sid fresh_csrf : String)
    (sess : Session) (disk : List (String × String)) (req : UploadRequest) :
    UploadOutcome :=
  let evs := [Ev.checkCsrf]
  if !(validate_csrf_token sess req.csrf_token) then
    { status := 403, events := evs, session := sess, disk := disk, downloadUrl := none }
  else
    let evs := evs ++ [Ev.checkFilesPresent]
    match req.files with
    | none =>
      { status := 400, events := evs, session := sess, disk := disk, downloadUrl := none }
    | some files =>
      let evs := evs ++ [Ev.checkCount]
      if files.length = 0 || ((files.headD ⟨"", 0, ""⟩).filename = "") then
        { status := 400, events := evs, session := sess, disk := disk, downloadUrl := none }
      else if files.length > MAX_FILES then
        { status := 400, events := evs, session := sess, disk := disk, downloadUrl := none }
      else
        let session_id := sess.session_id.getD fresh_sid
        let sess1 := { sess with session_id := some session_id }
        let lr := uploadLoop secure_filename session_id files disk [] evs
        if !(lr.ok) then
          { status := 400, events := lr.events, session := sess1, disk := lr.disk,
            downloadUrl := none }
        else
          let evs2 := lr.events ++ [Ev.checkApiKey]
          if !(pyTruthyStr env) then
            { status := 500, events := evs2, session := sess1, disk := lr.disk,
              downloadUrl := none }
          else
            let evs3 := evs2 ++ [Ev.pipelineCall]
            let run := generate_balance_sheet (diskLookup lr.disk) oracle parse
              dumps0 dumpsI env none lr.saved
            match run.result with
            | .error _ =>
              { status := 500, events := evs3, session := sess1, disk := lr.disk,
                downloadUrl := none }
            | .ok balance_sheet_text =>
              let output_filename := session_id ++ "_bilancio.pdf"
              let pdfPath := "outputs/" ++ output_filename
              let txtPath := "outputs/" ++ session_id ++ "_bilancio.txt"
              let disk2 := diskWrite lr.disk pdfPath balance_sheet_text
              let disk3 := diskWrite disk2 txtPath balance_sheet_text
              let evs4 := evs3 ++ [Ev.writePdf pdfPath, Ev.writeTxt txtPath,
                Ev.storeOutputFile, Ev.regenCsrf]
              let sess2 := { sess1 with
                output_file := some output_filename
                csrf_token := some fresh_csrf }
              let cl := cleanupLoop lr.saved disk3 evs4
              { status := 200, events := cl.2, session := sess2, disk := cl.1,
                downloadUrl := some ("/download/" ++ output_filename) }

/-- The observable outcome of one GET /download/<filename> request:
the HTTP status and the content served (if any). -/
structure DownloadOutcome where
  status : Nat
  served : Option String
  deriving Repr, DecidableEq

/-- The /download/<filename> route (app.py lines 313–348): 403 unless the
session has a (truthy) `session_id` and the requested name equals the
session's `output_file`; 404 when the file is gone; otherwise serve it.  No
cleanup is performed after serving. -/
def download (sess : Session) (disk : List (String × String)) (filename : String) :
    DownloadOutcome :=
  if !(pyTruthyStr sess.session_id) || !(decide (some filename = sess.output_file)) then
    { status := 403, served := none }
  else
    match diskLookup disk ("outputs/" ++ filename) with
    | none => { status := 404, served := none }
    | some content => { status := 200, served := some content }

/-! ## Specification-side definitions and concrete instances

`annotateLines`/`keptFrom` restate the classification rules of the spec in
filter form; `rowOfLine` is the description/amount split of a table row;
`checksPrecedeSaves` renders the claimed "all validation before any
persistence" ordering of an event trace; the `…W` definitions are the
concrete oracles and requests used by witnesses and counterexamples. -/

/-- The saved path of an uploaded file:
`uploads/<session_id>_<secure_filename(name)>`. -/
def savePathOf (secure_filename : String → String) (session_id : String) (f : UpFile) :
    String :=
  "uploads/" ++ session_id ++ "_" ++ secure_filename f.filename

/-- Annotate each stripped, non-empty, non-header line with the section
current when it is reached (`none` before the first header). -/
def annotateLines : Option SectionName → List String → List (Option SectionName × String)
  | _, [] => []
  | cur, l :: rest =>
    let line := pyStrip l
    if line = "" then annotateLines cur rest
    else
      match sectionHeaderOf line with
      | some n => annotateLines (some n) rest
      | none => (cur, line) :: annotateLines cur rest

/-- The spec's reading of the classifier: a non-empty non-header line is kept
for section `sec` exactly when the current section is `sec` and the line is a
note line or matches the financial-line heuristic. -/
def keptFrom (cur : Option SectionName) (sec : SectionName) (lines : List String) :
    List String :=
  (annotateLines cur lines).filterMap (fun p =>
    if p.1 = some sec ∧ (sec = SectionName.note ∨ financialKeep p.2 = true) then some p.2
    else none)

/-- The description/amount row the renderer builds from a kept line containing
`€`: the part before the first `€` (stripped, markdown-cleaned) and `"€ "`
followed by the part between the first and second `€` (stripped). -/
def rowOfLine (line : String) : String × String :=
  (pyStrip (pyReplace (pyReplace (pyStrip ((pySplit '€' line).headD "")) "**" "") "*" ""),
   "€ " ++ pyStrip ((pySplit '€' line).getD 1 ""))

/-- Is this event a file-type or file-size validation? -/
def isTypeOrSizeCheck : Ev → Bool
  | .checkType _ => true
  | .checkSize _ => true
  | _ => false

/-- Is this event the persisting of an uploaded file? -/
def isSave : Ev → Bool
  | .saveUpload _ => true
  | _ => false

/-- The ordering claimed for the upload route: in the trace, every
type/size-validation event precedes every save event (no save is followed,
anywhere later, by a validation event). -/
def checksPrecedeSaves : List Ev → Bool
  | [] => true
  | e :: rest =>
    if isSave e then rest.all (fun x => !(isTypeOrSizeCheck x)) && checksPrecedeSaves rest
    else checksPrecedeSaves rest

/-- LLM oracle used by witnesses: every reply is the text `R`. -/
def oracleW : Nat → String := fun _ => "R"

/-- `json.loads` oracle used by witnesses: it parses exactly the reply `R`,
to the empty JSON object (as `json.loads("{}")` would). -/
def parseW : String → Option Json :=
  fun s => if s = "R" then some (Json.obj []) else none

/-- A `json.loads` behaviour for the C8 null-difference counterexample:
`json.loads('\x7b"balance_difference": null\x7d')` yields a dict mapping
`balance_difference` to `None`. -/
def parseNullW : String → Option Json :=
  fun s => if s = "\x7b\"balance_difference\": null\x7d" then
    some (Json.obj [("balance_difference", Json.null)]) else none

/-- A `json.loads` behaviour for the C8 string-difference witness case:
the reply parses to an object with a string `balance_difference` and a
`corrected_data` key. -/
def parseStrDiffW : String → Option Json :=
  fun s => if s = "\x7b\"balance_difference\": \"12\", \"corrected_data\": 7\x7d" then
    some (Json.obj [("balance_difference", Json.str "12"), ("corrected_data", Json.num 7)])
  else none

/-- `json.loads` oracle for the phase-3 counterexample: it parses exactly the
string `[1]`, to the JSON array `[1]` — which is what Python's
`json.loads("[1]")` returns. -/
def parseListW : String → Option Json :=
  fun s => if s = "[1]" then some (Json.arr [Json.num 1]) else none

/-- `json.dumps` oracle used by witnesses. -/
def dumpsW : Json → String := fun _ => ""

/-- File system used by the pipeline witnesses: one PDF file. -/
def fsW : String → Option String :=
  fun p => if p = "uploads/SID_a.pdf" then some "PDFBYTES" else none

/-- `secure_filename` used by witnesses (identity on these benign names). -/
def secureW : String → String := fun s => s

/-- A session that already passed through the index route. -/
def sessW : Session :=
  { csrf_token := some "tok", session_id := some "SID", output_file := none }

/-- A session with no fields set. -/
def sessN : Session := { csrf_token := none, session_id := none, output_file := none }

/-- A valid single-file upload request matching `sessW`'s CSRF token. -/
def reqW : UploadRequest :=
  { csrf_token := some "tok",
    files := some [{ filename := "a.pdf", size := 100, content := "PDF1" }] }

/-- The two files of the two-file request. -/
def files2W : List UpFile :=
  [{ filename := "a.pdf", size := 100, content := "PDF1" },
   { filename := "b.pdf", size := 100, content := "PDF2" }]

/-- A valid two-file upload request matching `sessW`'s CSRF token. -/
def reqW2 : UploadRequest := { csrf_token := some "tok", files := some files2W }

/-- Six input paths for the max-files witness. -/
def paths6 : List String :=
  ["a.pdf", "b.pdf", "c.pdf", "d.pdf", "e.pdf", "f.pdf"]

/-- Six uploaded files for the max-files witness. -/
def files6 : List UpFile :=
  [{ filename := "a.pdf", size := 1, content := "x" },
   { filename := "b.pdf", size := 1, content := "x" },
   { filename := "c.pdf", size := 1, content := "x" },
   { filename := "d.pdf", size := 1, content := "x" },
   { filename := "e.pdf", size := 1, content := "x" },
   { filename := "f.pdf", size := 1, content := "x" }]

/-- A six-file upload request matching `sessW`'s CSRF token. -/
def reqW6 : UploadRequest := { csrf_token := some "tok", files := some files6 }

/-! ## Helper lemmas for the claim theorems -/

theorem string_append_left_cancel {a b c : String} (h : a ++ b = a ++ c) : b = c := by
  have hd : (a ++ b).data = (a ++ c).data := by rw [h]
  simp only [String.data_append] at hd
  have h2 := List.append_cancel_left hd
  cases b
  cases c
  exact congrArg String.mk h2

theorem uploads_ne_outputs (s1 s2 : String) : "uploads/" ++ s1 ≠ "outputs/" ++ s2 := by
  intro h
  have hd : ("uploads/" ++ s1).data = ("outputs/" ++ s2).data := by rw [h]
  simp [String.data_append] at hd

theorem diskLookup_diskRemove_self (d : List (String × String)) (p : String) :
    diskLookup (diskRemove d p) p = none := by
  induction d with
  | nil => simp [diskLookup, diskRemove]
  | cons e rest ih =>
    by_cases he : e.1 = p
    · simpa [diskRemove, List.filter, he] using ih
    · simpa [diskRemove, diskLookup, List.filter, he] using ih

theorem diskLookup_diskRemove_other (d : List (String × String)) (p q : String)
    (h : q ≠ p) : diskLookup (diskRemove d q) p = diskLookup d p := by
  induction d with
  | nil => simp [diskLookup, diskRemove]
  | cons e rest ih =>
    by_cases he : e.1 = q
    · have hep : ¬(e.1 = p) := by rw [he]; exact h
      simpa [diskRemove, diskLookup, List.filter, he, hep, h] using ih
    · by_cases hep : e.1 = p
      · simp [diskRemove, diskLookup, List.filter, he, hep, Ne.symm h]
      · simpa [diskRemove, diskLookup, List.filter, he, hep] using ih

theorem diskLookup_diskWrite_self (d : List (String × String)) (p c : String) :
    diskLookup (diskWrite d p c) p = some c := by
  induction d with
  | nil => simp [diskLookup, diskWrite]
  | cons e rest ih =>
    by_cases he : e.1 = p
    · simpa [diskWrite, List.filter, he] using ih
    · simpa [diskWrite, diskLookup, List.filter, he] using ih

theorem diskLookup_append (d1 d2 : List (String × String)) (p : String) :
    diskLookup (d1 ++ d2) p =
      (match diskLookup d1 p with
       | some c => some c
       | none => diskLookup d2 p) := by
  induction d1 with
  | nil => simp [diskLookup]
  | cons e rest ih =>
    by_cases he : e.1 = p
    · simp [diskLookup, he]
    · simpa [diskLookup, he] using ih

theorem diskLookup_diskWrite_other (d : List (String × String)) (p q c : String)
    (h : q ≠ p) : diskLookup (diskWrite d q c) p = diskLookup d p := by
  have hw : diskWrite d q c = diskRemove d q ++ [(q, c)] := rfl
  rw [hw, diskLookup_append, diskLookup_diskRemove_other d p q h]
  cases hl : diskLookup d p with
  | some c2 => rfl
  | none => simp [diskLookup, h]

theorem string_append_assoc (a b c : String) : a ++ b ++ c = a ++ (b ++ c) := by
  cases a; cases b; cases c
  exact congrArg String.mk (List.append_assoc _ _ _)

theorem cleanupLoop_lookup_none (l : List String) (d : List (String × String))
    (e : List Ev) (p : String) (h : diskLookup d p = none) :
    diskLookup (cleanupLoop l d e).1 p = none := by
  induction l generalizing d e with
  | nil => simpa [cleanupLoop] using h
  | cons q rest ih =>
    simp only [cleanupLoop]
    cases hq : diskLookup d q with
    | some c =>
      apply ih
      by_cases hqp : q = p
      · subst hqp
        exact diskLookup_diskRemove_self d q
      · rw [diskLookup_diskRemove_other d p q hqp]
        exact h
    | none => exact ih _ _ h

theorem cleanupLoop_removes (l : List String) (d : List (String × String))
    (e : List Ev) (p : String) (hp : p ∈ l) :
    diskLookup (cleanupLoop l d e).1 p = none := by
  induction l generalizing d e with
  | nil => cases hp
  | cons q rest ih =>
    simp only [cleanupLoop]
    cases hq : diskLookup d q with
    | some c =>
      rcases List.mem_cons.mp hp with hqp | hrest
      · subst hqp
        exact cleanupLoop_lookup_none _ _ _ _ (diskLookup_diskRemove_self d p)
      · exact ih _ _ hrest
    | none =>
      rcases List.mem_cons.mp hp with hqp | hrest
      · subst hqp
        exact cleanupLoop_lookup_none _ _ _ _ hq
      · exact ih _ _ hrest

theorem cleanupLoop_preserves (l : List String) (d : List (String × String))
    (e : List Ev) (p : String) (h : ∀ q ∈ l, q ≠ p) :
    diskLookup (cleanupLoop l d e).1 p = diskLookup d p := by
  induction l generalizing d e with
  | nil => rfl
  | cons q rest ih =>
    simp only [cleanupLoop]
    cases hq : diskLookup d q with
    | some c =>
      rw [ih _ _ (fun q2 hq2 => h q2 (List.mem_cons_of_mem _ hq2))]
      exact diskLookup_diskRemove_other d p q (h q (List.mem_cons_self _ _))
    | none => exact ih _ _ (fun q2 hq2 => h q2 (List.mem_cons_of_mem _ hq2))

theorem cleanupLoop_trace (l : List String) (d : List (String × String)) (e : List Ev)
    (hnd : l.Nodup) (hall : ∀ p ∈ l, ∃ c, diskLookup d p = some c) :
    (cleanupLoop l d e).2 = e ++ l.map Ev.removeUpload := by
  induction l generalizing d e with
  | nil => simp [cleanupLoop]
  | cons q rest ih =>
    obtain ⟨c, hc⟩ := hall q (List.mem_cons_self _ _)
    simp only [cleanupLoop, hc]
    rw [ih _ _ (List.nodup_cons.mp hnd).2 ?_]
    · simp
    · intro p hp
      obtain ⟨c2, hc2⟩ := hall p (List.mem_cons_of_mem _ hp)
      have hqp : q ≠ p := fun hh => (List.nodup_cons.mp hnd).1 (hh ▸ hp)
      exact ⟨c2, by rw [diskLookup_diskRemove_other d p q hqp]; exact hc2⟩


theorem uploadLoop_ok_trace (s : String → String) (sid : String) (files : List UpFile)
    (disk : List (String × String)) (saved : List String) (evs : List Ev)
    (h : (uploadLoop s sid files disk saved evs).ok = true) :
    (uploadLoop s sid files disk saved evs).events =
      evs ++ files.flatMap (fun f => [Ev.checkType f.filename, Ev.checkSize f.filename,
        Ev.saveUpload (savePathOf s sid f)]) ∧
    (uploadLoop s sid files disk saved evs).saved =
      saved ++ files.map (savePathOf s sid) := by
  induction files generalizing disk saved evs with
  | nil => simp [uploadLoop]
  | cons f rest ih =>
    simp only [uploadLoop] at h ⊢
    by_cases ht : allowed_file f.filename
    · simp only [ht, Bool.not_true, Bool.false_eq_true, if_false] at h ⊢
      by_cases hs2 : f.size > MAX_FILE_SIZE
      · simp [hs2] at h
      · simp only [hs2, if_false] at h ⊢
        obtain ⟨h1, h2⟩ := ih _ _ _ h
        rw [h1, h2]
        constructor
        · simp [savePathOf, List.append_assoc]
        · simp [savePathOf, List.append_assoc]
    · simp [ht] at h

theorem uploadLoop_saved_present (s : String → String) (sid : String) (files : List UpFile)
    (disk : List (String × String)) (saved : List String) (evs : List Ev)
    (hpre : ∀ p ∈ saved, ∃ c, diskLookup disk p = some c) :
    ∀ p ∈ (uploadLoop s sid files disk saved evs).saved,
      ∃ c, diskLookup (uploadLoop s sid files disk saved evs).disk p = some c := by
  induction files generalizing disk saved evs with
  | nil => simpa [uploadLoop] using hpre
  | cons f rest ih =>
    simp only [uploadLoop]
    by_cases ht : allowed_file f.filename
    · by_cases hs2 : f.size > MAX_FILE_SIZE
      · simp only [ht, Bool.not_true, Bool.false_eq_true, if_false, hs2, if_true]
        exact hpre
      · simp only [ht, Bool.not_true, Bool.false_eq_true, if_false, hs2]
        apply ih
        intro p hp
        rcases List.mem_append.mp hp with hp | hp
        · obtain ⟨c, hc⟩ := hpre p hp
          by_cases hpq : ("uploads/" ++ sid ++ "_" ++ s f.filename) = p
          · subst hpq
            exact ⟨f.content, diskLookup_diskWrite_self _ _ _⟩
          · exact ⟨c, by rw [diskLookup_diskWrite_other _ _ _ _ hpq]; exact hc⟩
        · have hp2 : p = "uploads/" ++ sid ++ "_" ++ s f.filename := by simpa using hp
          subst hp2
          exact ⟨f.content, diskLookup_diskWrite_self _ _ _⟩
    · simp only [ht, Bool.not_false, if_true]
      exact hpre

theorem uploadLoop_saved_shape (s : String → String) (sid : String) (files : List UpFile)
    (disk : List (String × String)) (saved : List String) (evs : List Ev) :
    ∀ p ∈ (uploadLoop s sid files disk saved evs).saved,
      p ∈ saved ∨ ∃ t, p = "uploads/" ++ t := by
  induction files generalizing disk saved evs with
  | nil => intro p hp; exact Or.inl (by simpa [uploadLoop] using hp)
  | cons f rest ih =>
    intro p hp
    simp only [uploadLoop] at hp
    by_cases ht : allowed_file f.filename
    · by_cases hs2 : f.size > MAX_FILE_SIZE
      · simp only [ht, Bool.not_true, Bool.false_eq_true, if_false, hs2, if_true] at hp
        exact Or.inl hp
      · simp only [ht, Bool.not_true, Bool.false_eq_true, if_false, hs2] at hp
        rcases ih _ _ _ p hp with hin | hshape
        · rcases List.mem_append.mp hin with hin | hin
          · exact Or.inl hin
          · have hp2 : p = "uploads/" ++ sid ++ "_" ++ s f.filename := by simpa using hin
            refine Or.inr ⟨sid ++ "_" ++ s f.filename, ?_⟩
            rw [hp2, string_append_assoc, string_append_assoc]
            rw [string_append_assoc]
        · exact Or.inr hshape
    · simp only [ht, Bool.not_false, if_true] at hp
      exact Or.inl hp

theorem cleanupLoop_events_mem (l : List String) (d : List (String × String))
    (e : List Ev) (x : Ev) (hx : x ∈ (cleanupLoop l d e).2) :
    x ∈ e ∨ ∃ q, x = Ev.removeUpload q := by
  induction l generalizing d e with
  | nil => exact Or.inl (by simpa [cleanupLoop] using hx)
  | cons q rest ih =>
    simp only [cleanupLoop] at hx
    cases hq : diskLookup d q with
    | some c =>
      rw [hq] at hx
      rcases ih _ _ hx with hin | hrem
      · rcases List.mem_append.mp hin with hin | hin
        · exact Or.inl hin
        · exact Or.inr ⟨q, by simpa using hin⟩
      · exact Or.inr hrem
    | none =>
      rw [hq] at hx
      exact ih _ _ hx

theorem keptFrom_nil (cur : Option SectionName) (sec : SectionName) :
    keptFrom cur sec [] = [] := rfl

theorem keptFrom_cons_empty {l : String} (h : pyStrip l = "")
    (cur : Option SectionName) (sec : SectionName) (rest : List String) :
    keptFrom cur sec (l :: rest) = keptFrom cur sec rest := by
  simp [keptFrom, annotateLines, h]

theorem keptFrom_cons_header {l : String} {n : SectionName} (h : ¬(pyStrip l = ""))
    (hh : sectionHeaderOf (pyStrip l) = some n)
    (cur : Option SectionName) (sec : SectionName) (rest : List String) :
    keptFrom cur sec (l :: rest) = keptFrom (some n) sec rest := by
  simp [keptFrom, annotateLines, h, hh]

theorem keptFrom_cons_line {l : String} (h : ¬(pyStrip l = ""))
    (hh : sectionHeaderOf (pyStrip l) = none)
    (cur : Option SectionName) (sec : SectionName) (rest : List String) :
    keptFrom cur sec (l :: rest) =
      if cur = some sec ∧ (sec = SectionName.note ∨ financialKeep (pyStrip l) = true)
      then pyStrip l :: keptFrom cur sec rest else keptFrom cur sec rest := by
  simp only [keptFrom, annotateLines, h, if_false, hh]
  split
  · next hcond => simp [List.filterMap, hcond]
  · next hcond => simp [List.filterMap, hcond]

theorem parseLinesAux_keptFrom (lines : List String) :
    ∀ (cur : Option SectionName) (acc : Sections),
      parseLinesAux lines cur acc =
        { attivo := acc.attivo ++ keptFrom cur .attivo lines,
          passivo := acc.passivo ++ keptFrom cur .passivo lines,
          conto_economico := acc.conto_economico ++ keptFrom cur .conto_economico lines,
          note := acc.note ++ keptFrom cur .note lines } := by
  induction lines with
  | nil => intro cur acc; simp [parseLinesAux, keptFrom_nil]
  | cons l rest ih =>
    intro cur acc
    by_cases hempty : pyStrip l = ""
    · simp only [parseLinesAux, hempty, if_true]
      rw [ih cur acc]
      simp only [keptFrom_cons_empty hempty]
    · cases hh : sectionHeaderOf (pyStrip l) with
      | some n =>
        simp only [parseLinesAux, hempty, if_false, hh]
        rw [ih (some n) acc]
        simp only [keptFrom_cons_header hempty hh]
      | none =>
        cases cur with
        | none =>
          simp only [parseLinesAux, hempty, if_false, hh]
          rw [ih none acc]
          simp only [keptFrom_cons_line hempty hh]
          simp
        | some name =>
          by_cases hk : financialKeep (pyStrip l) = true
          · cases name with
            | note =>
              simp only [parseLinesAux, hempty, if_false, hh]
              rw [if_neg (by simp), ih (some SectionName.note)
                (appendToSection acc .note (pyStrip l))]
              simp only [keptFrom_cons_line hempty hh]
              simp [appendToSection, hk]
            | attivo =>
              simp only [parseLinesAux, hempty, if_false, hh]
              rw [if_pos (by simp), if_pos hk, ih (some SectionName.attivo)
                (appendToSection acc .attivo (pyStrip l))]
              simp only [keptFrom_cons_line hempty hh]
              simp [appendToSection, hk]
            | passivo =>
              simp only [parseLinesAux, hempty, if_false, hh]
              rw [if_pos (by simp), if_pos hk, ih (some SectionName.passivo)
                (appendToSection acc .passivo (pyStrip l))]
              simp only [keptFrom_cons_line hempty hh]
              simp [appendToSection, hk]
            | conto_economico =>
              simp only [parseLinesAux, hempty, if_false, hh]
              rw [if_pos (by simp), if_pos hk, ih (some SectionName.conto_economico)
                (appendToSection acc .conto_economico (pyStrip l))]
              simp only [keptFrom_cons_line hempty hh]
              simp [appendToSection, hk]
          · cases name with
            | note =>
              simp only [parseLinesAux, hempty, if_false, hh]
              rw [if_neg (by simp), ih (some SectionName.note)
                (appendToSection acc .note (pyStrip l))]
              simp only [keptFrom_cons_line hempty hh]
              simp [appendToSection, hk]
            | attivo =>
              simp only [parseLinesAux, hempty, if_false, hh]
              rw [if_pos (by simp), if_neg hk, ih (some SectionName.attivo) acc]
              simp only [keptFrom_cons_line hempty hh]
              simp [hk]
            | passivo =>
              simp only [parseLinesAux, hempty, if_false, hh]
              rw [if_pos (by simp), if_neg hk, ih (some SectionName.passivo) acc]
              simp only [keptFrom_cons_line hempty hh]
              simp [hk]
            | conto_economico =>
              simp only [parseLinesAux, hempty, if_false, hh]
              rw [if_pos (by simp), if_neg hk, ih (some SectionName.conto_economico) acc]
              simp only [keptFrom_cons_line hempty hh]
              simp [hk]

theorem splitOnChar_ne_nil (sep : Char) (cs : List Char) : splitOnChar sep cs ≠ [] := by
  cases cs with
  | nil => simp [splitOnChar]
  | cons c rest =>
    simp only [splitOnChar]
    by_cases hc : c = sep
    · simp [hc]
    · simp only [hc, if_false]
      cases hr : splitOnChar sep rest with
      | nil => exact absurd hr (splitOnChar_ne_nil sep rest)
      | cons h2 t2 => simp

theorem splitOnChar_length_ge_two {sep : Char} {cs : List Char} (h : sep ∈ cs) :
    2 ≤ (splitOnChar sep cs).length := by
  induction cs with
  | nil => cases h
  | cons c rest ih =>
    simp only [splitOnChar]
    by_cases hc : c = sep
    · simp only [hc, if_true]
      have h1 : splitOnChar sep rest ≠ [] := splitOnChar_ne_nil sep rest
      cases hr : splitOnChar sep rest with
      | nil => exact absurd hr h1
      | cons h2 t2 => simp
    · simp only [hc, if_false]
      have hmem : sep ∈ rest := by
        rcases List.mem_cons.mp h with h2 | h2
        · exact absurd h2.symm hc
        · exact h2
      have h2 := ih hmem
      cases hr : splitOnChar sep rest with
      | nil => exact absurd hr (splitOnChar_ne_nil sep rest)
      | cons h3 t3 =>
        rw [hr] at h2
        simpa using h2

theorem hasInfixL_singleton (c : Char) (l : List Char) :
    hasInfixL [c] l = true ↔ c ∈ l := by
  induction l with
  | nil => simp [hasInfixL, List.isEmpty]
  | cons c2 rest ih =>
    simp only [hasInfixL, hasPrefixL, Bool.or_eq_true, decide_eq_true_eq]
    constructor
    · rintro (h1 | h2)
      · simp only [List.length_singleton, List.take_succ_cons, List.take_zero] at h1
        have : c2 = c := by simpa using h1
        exact this ▸ List.mem_cons_self _ _
      · exact List.mem_cons_of_mem _ (ih.mp h2)
    · intro hmem
      rcases List.mem_cons.mp hmem with h1 | h1
      · left
        simp [h1]
      · right
        exact ih.mpr h1

theorem pySplit_length_ge_two {sep : Char} {s : String} (h : sep ∈ s.toList) :
    2 ≤ (pySplit sep s).length := by
  have := splitOnChar_length_ge_two h
  simpa [pySplit] using this

/-- The description/amount row the renderer builds from a kept line containing
`€`: the part before the first `€` (stripped, markdown-cleaned) and `"€ "`
followed by the part between the first and second `€` (stripped). -/

theorem create_financial_table_rows_eq (data : List String) :
    create_financial_table_rows data =
      ((data.take 30).filter (fun l => strContains l "€")).map rowOfLine := by
  simp only [create_financial_table_rows]
  induction data.take 30 with
  | nil => rfl
  | cons line rest ih =>
    rw [List.filterMap_cons, List.filter_cons]
    cases hc : strContains line "€" with
    | false =>
      simp only [hc, Bool.false_eq_true, if_false]
      exact ih
    | true =>
      have hmem : '€' ∈ line.toList := by
        have h2 : hasInfixL "€".toList line.toList = true := hc
        have h3 : "€".toList = ['€'] := rfl
        rw [h3] at h2
        exact (hasInfixL_singleton '€' line.toList).mp h2
      have hlen := pySplit_length_ge_two hmem
      cases hsp : pySplit '€' line with
      | nil => rw [hsp] at hlen; simp at hlen
      | cons p0 ps =>
        cases ps with
        | nil => rw [hsp] at hlen; simp at hlen
        | cons p1 t =>
          simp only [hc, if_true, hsp, List.map_cons]
          rw [ih]
          congr 1
          simp [rowOfLine, hsp]

/-! ## The claim theorems -/

/-- Claim C2: `_extract_json` best-effort-parses JSON out of free model text:
after stripping markdown code fences (and Python-stripping), it tries the
three strategies in the fixed source order — direct parse, parse of the
balanced-brace substring, parse after deleting trailing commas — returns the
value of the first strategy that parses, and raises `ValueError` exactly when
no strategy yields valid JSON.  Quantified over every input string and every
behaviour `parse` of the external `json.loads`. -/
theorem extract_json_first_success (parse : String → Option Json) (text : String) :
    (_extract_json parse text =
      match firstSome (extractJsonStrategies parse text) with
      | some j => Except.ok j
      | none => Except.error (extractJsonErrMsg (pyStrip (stripFences text)))) ∧
    ((∃ msg, _extract_json parse text = Except.error msg) ↔
      firstSome (extractJsonStrategies parse text) = none) := by
  have hmain : _extract_json parse text =
      match firstSome (extractJsonStrategies parse text) with
      | some j => Except.ok j
      | none => Except.error (extractJsonErrMsg (pyStrip (stripFences text))) := by
    simp only [_extract_json, extractJsonStrategies]
    cases h1 : parse (pyStrip (stripFences text)) with
    | some j => simp [firstSome]
    | none =>
      cases h2 : (braceCandidate (pyStrip (stripFences text))).bind parse with
      | some j => simp [firstSome]
      | none =>
        cases h3 : parse (fixCommas (pyStrip (stripFences text))) with
        | some j => simp [firstSome]
        | none => simp [firstSome, extractJsonErrMsg]
  refine ⟨hmain, ?_⟩
  rw [hmain]
  cases hfs : firstSome (extractJsonStrategies parse text) with
  | some j => simp
  | none => simp

/-- Claim C5: each of the four pipeline stages issues exactly one model
request, with its fixed prompt template (the phase-1 constant prompt; the
phase-2/3/4 templates around the serialised data of the previous stage), and
no request is retried: a whole run issues at most four requests.  Quantified
over every oracle reply, every `json.loads`/`json.dumps` behaviour and every
input. -/
theorem stage_single_call (oracle : Nat → String) (parse : String → Option Json)
    (dumps0 dumpsI : Json → String) (k : Nat) (docs : List Document)
    (doc_summary extracted validated : Json) (fs : String → Option String)
    (env api_key : Option String) (filepaths : List String) :
    (_analyze_documents oracle parse k docs).2 =
      [⟨"claude-haiku-4-5", 1500, docs, analyze_prompt_text⟩] ∧
    (_extract_financial_data oracle parse dumps0 k docs doc_summary).2 =
      [⟨"claude-sonnet-4-5", 7000, docs,
        extract_prompt_pre ++ dumps0 doc_summary ++ extract_prompt_post⟩] ∧
    (_validate_and_calculate oracle parse dumpsI k extracted).2 =
      [⟨"claude-haiku-4-5", 6000, [],
        validate_prompt_pre ++ dumpsI extracted ++ validate_prompt_post⟩] ∧
    (_format_balance_sheet oracle dumpsI k validated).2 =
      [⟨"claude-haiku-4-5", 6000, [],
        format_prompt_pre ++ dumpsI validated ++ format_prompt_post⟩] ∧
    (generate_balance_sheet fs oracle parse dumps0 dumpsI env api_key
      filepaths).calls.length ≤ 4 := by
  refine ⟨rfl, rfl, rfl, rfl, ?_⟩
  simp only [generate_balance_sheet]
  split
  · simp
  · split
    · simp
    · split
      · simp
      · split
        · simp [_analyze_documents, _extract_financial_data]
        · split
          · simp [_analyze_documents, _extract_financial_data, _validate_and_calculate]
          · simp [_analyze_documents, _extract_financial_data, _validate_and_calculate,
              _format_balance_sheet]

/-- Claim C1: every successful run of `generate_balance_sheet` issues exactly
four model calls, in the order document summary (Haiku, with the PDF
documents attached) → detailed JSON extraction (Sonnet, with the documents
and the serialised summary in the prompt) → arithmetic validation (Haiku,
with the serialised extracted data) → plain-text formatting (Haiku, with the
serialised validated data); each stage's reply is stripped and post-processed
(JSON-extracted, with the phase-1 fallback and the phase-3
`corrected_data`-or-original rule) and fed into the next stage's prompt, and
the returned value is the markdown-cleaned text of the fourth reply. -/
theorem generate_balance_sheet_four_calls
    (fs : String → Option String) (oracle : Nat → String) (parse : String → Option Json)
    (dumps0 dumpsI : Json → String) (env api_key : Option String)
    (filepaths : List String) (out : String)
    (h : (generate_balance_sheet fs oracle parse dumps0 dumpsI env api_key filepaths).result
      = Except.ok out) :
    ∃ docs extracted validated,
      (_load_documents fs filepaths).1 = Except.ok docs ∧
      (_extract_financial_data oracle parse dumps0 1 docs
        (_analyze_documents oracle parse 0 docs).1).1 = Except.ok extracted ∧
      (_validate_and_calculate oracle parse dumpsI 2 extracted).1 = Except.ok validated ∧
      (generate_balance_sheet fs oracle parse dumps0 dumpsI env api_key filepaths).calls =
        [⟨"claude-haiku-4-5", 1500, docs, analyze_prompt_text⟩,
         ⟨"claude-sonnet-4-5", 7000, docs,
           extract_prompt_pre ++ dumps0 ((_analyze_documents oracle parse 0 docs).1)
             ++ extract_prompt_post⟩,
         ⟨"claude-haiku-4-5", 6000, [],
           validate_prompt_pre ++ dumpsI extracted ++ validate_prompt_post⟩,
         ⟨"claude-haiku-4-5", 6000, [],
           format_prompt_pre ++ dumpsI validated ++ format_prompt_post⟩] ∧
      out = _cleanup_formatting (pyStrip (oracle 3)) := by
  simp only [generate_balance_sheet] at h ⊢
  split at h
  · simp at h
  · next hle =>
    split at h
    · simp at h
    · split at h
      · simp at h
      · next docs heqload =>
        split at h
        · simp at h
        · next ed heqex =>
          split at h
          · simp at h
          · next vd heqva =>
            refine ⟨docs, ed, vd, heqload, heqex, heqva, ?_, ?_⟩
            · simp [hle, heqload, heqex, heqva, _analyze_documents, _extract_financial_data,
                _validate_and_calculate, _format_balance_sheet]
            · have := h.symm
              simpa [_format_balance_sheet] using this

/-- Witness for C1 at a concrete successful run: one PDF, all replies `R`,
`json.loads` parsing `R` to the empty object. -/
theorem generate_balance_sheet_four_calls_witness :
    (generate_balance_sheet fsW oracleW parseW dumpsW dumpsW (some "key") none
        ["uploads/SID_a.pdf"]).result = Except.ok "R" ∧
    (∃ docs extracted validated,
      (_load_documents fsW ["uploads/SID_a.pdf"]).1 = Except.ok docs ∧
      (_extract_financial_data oracleW parseW dumpsW 1 docs
        (_analyze_documents oracleW parseW 0 docs).1).1 = Except.ok extracted ∧
      (_validate_and_calculate oracleW parseW dumpsW 2 extracted).1 = Except.ok validated ∧
      (generate_balance_sheet fsW oracleW parseW dumpsW dumpsW (some "key") none
          ["uploads/SID_a.pdf"]).calls =
        [⟨"claude-haiku-4-5", 1500, docs, analyze_prompt_text⟩,
         ⟨"claude-sonnet-4-5", 7000, docs,
           extract_prompt_pre ++ dumpsW ((_analyze_documents oracleW parseW 0 docs).1)
             ++ extract_prompt_post⟩,
         ⟨"claude-haiku-4-5", 6000, [],
           validate_prompt_pre ++ dumpsW extracted ++ validate_prompt_post⟩,
         ⟨"claude-haiku-4-5", 6000, [],
           format_prompt_pre ++ dumpsW validated ++ format_prompt_post⟩] ∧
      "R" = _cleanup_formatting (pyStrip (oracleW 3))) :=
  ⟨rfl, generate_balance_sheet_four_calls fsW oracleW parseW dumpsW dumpsW (some "key")
    none ["uploads/SID_a.pdf"] "R" rfl⟩

/-- Claim C8 counterexample, two malformed phase-3 replies that abort the
pipeline although the claim says they never do.  First, the reply `[1]` is
well-formed JSON lacking a `corrected_data` key (it is not even an object),
and the `.get` attribute accesses raise `AttributeError`, which
`except ValueError` does not catch.  Second, the reply
`\x7b"balance_difference": null\x7d` extracts to an object lacking
`corrected_data`, but with `is_balanced` missing (hence falsy) the diagnostic
f-string `f"…€\x7bdiff:,.2f\x7d"` formats `None` and raises `TypeError`,
also uncaught.  The parse oracles agree with Python's `json.loads` on the
strings involved. -/
theorem validate_malformed_reply_aborts :
    (_extract_json parseListW "[1]" = Except.ok (Json.arr [Json.num 1]) ∧
     (_validate_and_calculate (fun _ => "[1]") parseListW (fun _ => "") 0 (Json.obj [])).1
       = Except.error PyErr.attributeError) ∧
    (_extract_json parseNullW "\x7b\"balance_difference\": null\x7d"
       = Except.ok (Json.obj [("balance_difference", Json.null)]) ∧
     jsonLookup [("balance_difference", Json.null)] "corrected_data" = none ∧
     (_validate_and_calculate (fun _ => "\x7b\"balance_difference\": null\x7d")
        parseNullW (fun _ => "") 0 (Json.obj [])).1 = Except.error PyErr.typeError) :=
  ⟨⟨rfl, rfl⟩, rfl, rfl, rfl⟩

/-- Claim C8 (amended): for every validation-stage reply from which no JSON
can be extracted (`ValueError` from the extractor), the stage returns the
phase-2 extracted data unchanged.  For a reply extracting to an object that
lacks `corrected_data`, the extracted data is returned unchanged provided the
diagnostic prints succeed: `is_balanced` truthy or `balance_difference`
(default `0`) formattable with `:,.2f`, and `corrections_made` (default `[]`)
falsy or sized.  When `is_balanced` is falsy and `balance_difference` is a
string, the f-string raises `ValueError`, which the `except` clause catches,
so the extracted data is returned even when `corrected_data` is present.  But
when `is_balanced` is falsy and `balance_difference` is `None`, a list or an
object, the f-string raises `TypeError`, uncaught, and the stage aborts. -/
theorem validate_fallback_amended (oracle : Nat → String) (parse : String → Option Json)
    (dumpsI : Json → String) (k : Nat) (extracted_data : Json) :
    ((∃ msg, _extract_json parse (pyStrip (oracle k)) = Except.error msg) →
      (_validate_and_calculate oracle parse dumpsI k extracted_data).1
        = Except.ok extracted_data) ∧
    (∀ fields, _extract_json parse (pyStrip (oracle k)) = Except.ok (Json.obj fields) →
      jsonLookup fields "corrected_data" = none →
      (jsonTruthy ((jsonLookup fields "is_balanced").getD (Json.bool false)) = true ∨
        formatFixed2 ((jsonLookup fields "balance_difference").getD (Json.num 0))
          = FmtOutcome.ok) →
      (jsonTruthy ((jsonLookup fields "corrections_made").getD (Json.arr [])) = false ∨
        jsonHasLen ((jsonLookup fields "corrections_made").getD (Json.arr [])) = true) →
      (_validate_and_calculate oracle parse dumpsI k extracted_data).1
        = Except.ok extracted_data) ∧
    (∀ fields, _extract_json parse (pyStrip (oracle k)) = Except.ok (Json.obj fields) →
      jsonTruthy ((jsonLookup fields "is_balanced").getD (Json.bool false)) = false →
      formatFixed2 ((jsonLookup fields "balance_difference").getD (Json.num 0))
        = FmtOutcome.valueError →
      (_validate_and_calculate oracle parse dumpsI k extracted_data).1
        = Except.ok extracted_data) ∧
    (∀ fields, _extract_json parse (pyStrip (oracle k)) = Except.ok (Json.obj fields) →
      jsonTruthy ((jsonLookup fields "is_balanced").getD (Json.bool false)) = false →
      formatFixed2 ((jsonLookup fields "balance_difference").getD (Json.num 0))
        = FmtOutcome.typeError →
      (_validate_and_calculate oracle parse dumpsI k extracted_data).1
        = Except.error PyErr.typeError) := by
  refine ⟨?_, ?_, ?_, ?_⟩
  · rintro ⟨msg, hmsg⟩
    simp [_validate_and_calculate, hmsg]
  · intro fields hok hnone hfmt hcorr
    by_cases hb : jsonTruthy ((jsonLookup fields "is_balanced").getD (Json.bool false)) = true
    · rcases hcorr with hc | hc <;> simp [_validate_and_calculate, hok, hnone, hb, hc]
    · have hb2 : jsonTruthy ((jsonLookup fields "is_balanced").getD (Json.bool false))
          = false := by simpa using hb
      rcases hfmt with h | h
      · exact absurd h hb
      · rcases hcorr with hc | hc <;>
          simp [_validate_and_calculate, hok, hnone, hb2, h, hc]
  · intro fields hok hb hv
    simp [_validate_and_calculate, hok, hb, hv]
  · intro fields hok hb ht
    simp [_validate_and_calculate, hok, hb, ht]

/-- Witness for the amended C8, discharging each conjunct's hypotheses at
concrete inputs: a reply no `json.loads` behaviour parses; the reply `R`
parsed to the empty object (no `corrected_data`, safe defaults); a reply with
a string `balance_difference` and `corrected_data` present, where the caught
`ValueError` still returns the extracted data; and the reply with a null
`balance_difference`, which aborts with `TypeError`. -/
theorem validate_fallback_amended_witness :
    (_validate_and_calculate oracleW (fun _ => none) dumpsW 0 (Json.obj [])).1
      = Except.ok (Json.obj []) ∧
    (_validate_and_calculate oracleW parseW dumpsW 0 (Json.num 7)).1
      = Except.ok (Json.num 7) ∧
    (_validate_and_calculate
        (fun _ => "\x7b\"balance_difference\": \"12\", \"corrected_data\": 7\x7d")
        parseStrDiffW dumpsW 0 (Json.num 7)).1 = Except.ok (Json.num 7) ∧
    (_validate_and_calculate (fun _ => "\x7b\"balance_difference\": null\x7d")
        parseNullW dumpsW 0 (Json.num 7)).1 = Except.error PyErr.typeError :=
  ⟨(validate_fallback_amended oracleW (fun _ => none) dumpsW 0 (Json.obj [])).1 ⟨_, rfl⟩,
   (validate_fallback_amended oracleW parseW dumpsW 0 (Json.num 7)).2.1 [] rfl rfl
     (Or.inr rfl) (Or.inl rfl),
   (validate_fallback_amended
       (fun _ => "\x7b\"balance_difference\": \"12\", \"corrected_data\": 7\x7d")
       parseStrDiffW dumpsW 0 (Json.num 7)).2.2.1
     [("balance_difference", Json.str "12"), ("corrected_data", Json.num 7)] rfl rfl rfl,
   (validate_fallback_amended (fun _ => "\x7b\"balance_difference\": null\x7d")
       parseNullW dumpsW 0 (Json.num 7)).2.2.2
     [("balance_difference", Json.null)] rfl rfl rfl⟩

/-- Claim C6: the CSRF gate.  A POST /upload whose `csrf_token` form field
differs from the token stored in the requester's session (including when the
session holds no token and the field is present) is rejected with status 403
before anything happens: the trace is the single CSRF check, the disk is
untouched (so no uploaded file was saved) and the session is unchanged.  A
request whose field equals the stored token passes `validate_csrf_token`.
Absence of the field and of the stored token are both modelled as `none`,
mirroring Python's `None == None`. -/
theorem upload_csrf_gate (secure_filename : String → String) (oracle : Nat → String)
    (parse : String → Option Json) (dumps0 dumpsI : Json → String)
    (env : Option String) (fresh_sid fresh_csrf : String)
    (sess : Session) (disk : List (String × String)) (req : UploadRequest) :
    (req.csrf_token ≠ sess.csrf_token →
      upload secure_filename oracle parse dumps0 dumpsI env fresh_sid fresh_csrf sess disk req
        = { status := 403, events := [Ev.checkCsrf], session := sess,
            disk := disk, downloadUrl := none }) ∧
    (req.csrf_token = sess.csrf_token →
      validate_csrf_token sess req.csrf_token = true) := by
  constructor
  · intro h
    simp [upload, validate_csrf_token, h]
  · intro h
    simp [validate_csrf_token, h]

/-- Witness for C6: a request carrying a token against a session that holds
no token is rejected with 403 and nothing saved; a matching token passes
validation. -/
theorem upload_csrf_gate_witness :
    ((some "x" : Option String) ≠ sessN.csrf_token ∧
      upload secureW oracleW parseW dumpsW dumpsW (some "key") "F" "T" sessN []
        { csrf_token := some "x", files := some [] }
        = { status := 403, events := [Ev.checkCsrf], session := sessN,
            disk := [], downloadUrl := none }) ∧
    (reqW.csrf_token = sessW.csrf_token ∧
      validate_csrf_token sessW reqW.csrf_token = true) :=
  ⟨⟨by decide,
    (upload_csrf_gate secureW oracleW parseW dumpsW dumpsW (some "key") "F" "T" sessN []
      { csrf_token := some "x", files := some [] }).1 (by decide)⟩,
   rfl,
   (upload_csrf_gate secureW oracleW parseW dumpsW dumpsW (some "key") "F" "T" sessW []
     reqW).2 rfl⟩

/-- Claim C10: /download/<filename> access control.  The file is served (200)
exactly when the session carries a truthy `session_id`, the requested name
equals the session's `output_file`, and the file exists in the output folder;
any request failing the session checks is rejected with 403 (so no client can
download another session's PDF: what is served is determined by the
requester's own session), and a matching request whose file is gone gets
404. -/
theorem download_access_control (sess : Session) (disk : List (String × String))
    (filename : String) :
    ((download sess disk filename).status = 200 ↔
      (pyTruthyStr sess.session_id = true ∧ sess.output_file = some filename ∧
        ∃ c, diskLookup disk ("outputs/" ++ filename) = some c)) ∧
    (¬(pyTruthyStr sess.session_id = true ∧ sess.output_file = some filename) →
      download sess disk filename = { status := 403, served := none }) ∧
    (pyTruthyStr sess.session_id = true → sess.output_file = some filename →
      diskLookup disk ("outputs/" ++ filename) = none →
      download sess disk filename = { status := 404, served := none }) := by
  by_cases h1 : pyTruthyStr sess.session_id = true
  · by_cases h2 : some filename = sess.output_file
    · refine ⟨?_, ?_, ?_⟩
      · cases h3 : diskLookup disk ("outputs/" ++ filename) with
        | none => simp [download, h1, h2.symm, h3]
        | some c => simp [download, h1, h2.symm, h3]
      · intro hcon
        exact absurd ⟨h1, h2.symm⟩ hcon
      · intro _ _ h3
        simp [download, h1, h2.symm, h3]
    · have h2' : ¬(sess.output_file = some filename) := fun hh => h2 hh.symm
      refine ⟨?_, ?_, ?_⟩
      · simp [download, h1, h2, h2']
      · intro _
        simp [download, h1, h2]
      · intro _ hof; exact absurd hof h2'
  · refine ⟨?_, ?_, ?_⟩
    · simp [download, h1]
    · intro _; simp [download, h1]
    · intro hh; exact absurd hh h1

/-- Witness for C10: a session without a `session_id` is refused its own
`output_file` with 403; a session whose `output_file` matches but whose file
is gone from the disk gets 404. -/
theorem download_access_control_witness :
    download (⟨none, none, some "x.pdf"⟩ : Session) [] "x.pdf"
      = { status := 403, served := none } ∧
    download (⟨none, some "SID", some "SID_bilancio.pdf"⟩ : Session) [] "SID_bilancio.pdf"
      = { status := 404, served := none } :=
  ⟨(download_access_control _ [] "x.pdf").2.1 (by decide),
   (download_access_control _ [] "SID_bilancio.pdf").2.2 (by decide) (by decide) rfl⟩

/-- Claim C9: the maximum-files guard.  `generate_balance_sheet` raises
`ValueError` for more than 5 paths before reading any file and before issuing
any model call (empty call and read traces); the upload route, once past the
CSRF gate, rejects a request with more than `MAX_FILES` files with status 400
before saving any file; and regardless of the CSRF outcome, such a request
never reaches the pipeline — so the pipeline is never invoked with more than
5 files through the web interface. -/
theorem max_files_rejected
    (fs : String → Option String) (oracle : Nat → String) (parse : String → Option Json)
    (dumps0 dumpsI : Json → String) (env api_key : Option String) (filepaths : List String)
    (secure_filename : String → String) (fresh_sid fresh_csrf : String)
    (sess : Session) (disk : List (String × String)) (req : UploadRequest)
    (files : List UpFile) :
    (filepaths.length > 5 →
      generate_balance_sheet fs oracle parse dumps0 dumpsI env api_key filepaths =
        { result := Except.error (PyErr.valueError
            ("Maximum 5 files allowed, got " ++ toString filepaths.length)),
          calls := [], reads := [] }) ∧
    (validate_csrf_token sess req.csrf_token = true → req.files = some files →
      files.length > MAX_FILES →
      (upload secure_filename oracle parse dumps0 dumpsI env fresh_sid fresh_csrf
          sess disk req).status = 400 ∧
      (∀ p, Ev.saveUpload p ∉ (upload secure_filename oracle parse dumps0 dumpsI env
          fresh_sid fresh_csrf sess disk req).events)) ∧
    (req.files = some files → files.length > MAX_FILES →
      Ev.pipelineCall ∉ (upload secure_filename oracle parse dumps0 dumpsI env
        fresh_sid fresh_csrf sess disk req).events) := by
  refine ⟨?_, ?_, ?_⟩
  · intro h5
    simp [generate_balance_sheet, h5]
  · intro hcsrf hfiles hlen
    have hlen0 : ¬(files.length = 0) := by
      simp [MAX_FILES] at hlen
      omega
    by_cases hhead : (files.head?.getD (⟨"", 0, ""⟩ : UpFile)).filename = ""
    · constructor
      · simp [upload, hcsrf, hfiles, hhead, hlen0]
      · intro p
        simp [upload, hcsrf, hfiles, hhead, hlen0]
    · constructor
      · simp [upload, hcsrf, hfiles, hhead, hlen0, hlen]
      · intro p
        simp [upload, hcsrf, hfiles, hhead, hlen0, hlen]
  · intro hfiles hlen
    have hlen0 : ¬(files.length = 0) := by
      simp [MAX_FILES] at hlen
      omega
    by_cases hcsrf : validate_csrf_token sess req.csrf_token = true
    · by_cases hhead : (files.head?.getD (⟨"", 0, ""⟩ : UpFile)).filename = ""
      · simp [upload, hcsrf, hfiles, hhead, hlen0]
      · simp [upload, hcsrf, hfiles, hhead, hlen0, hlen]
    · simp [upload, hcsrf, hfiles]

/-- Witness for C9 at six files/paths. -/
theorem max_files_rejected_witness :
    (paths6.length > 5 ∧
      generate_balance_sheet fsW oracleW parseW dumpsW dumpsW (some "key") none paths6 =
        { result := Except.error (PyErr.valueError
            ("Maximum 5 files allowed, got " ++ toString paths6.length)),
          calls := [], reads := [] }) ∧
    ((upload secureW oracleW parseW dumpsW dumpsW (some "key") "F" "T" sessW [] reqW6).status
        = 400 ∧
      (∀ p, Ev.saveUpload p ∉ (upload secureW oracleW parseW dumpsW dumpsW (some "key")
        "F" "T" sessW [] reqW6).events)) ∧
    Ev.pipelineCall ∉ (upload secureW oracleW parseW dumpsW dumpsW (some "key") "F" "T"
      sessW [] reqW6).events :=
  ⟨⟨by decide,
    (max_files_rejected fsW oracleW parseW dumpsW dumpsW (some "key") none paths6 secureW
      "F" "T" sessW [] reqW6 files6).1 (by decide)⟩,
   (max_files_rejected fsW oracleW parseW dumpsW dumpsW (some "key") none paths6 secureW
     "F" "T" sessW [] reqW6 files6).2.1 (by decide) rfl (by decide),
   (max_files_rejected fsW oracleW parseW dumpsW dumpsW (some "key") none paths6 secureW
     "F" "T" sessW [] reqW6 files6).2.2 rfl (by decide)⟩

/-- Claim C3 counterexample: a successful upload request, starting from an
empty disk, ends with the generated PDF and the text backup still in the
output folder — files written during processing that are never removed, so
the application does leave files behind. -/
theorem upload_outputs_persist :
    (upload secureW oracleW parseW dumpsW dumpsW (some "key") "FSID" "tok2" sessW [] reqW).status = 200 ∧
    (upload secureW oracleW parseW dumpsW dumpsW (some "key") "FSID" "tok2" sessW [] reqW).disk =
      [("outputs/SID_bilancio.pdf", "R"), ("outputs/SID_bilancio.txt", "R")] :=
  ⟨rfl, rfl⟩

/-- Claim C3 (amended): for every successful upload request, the saved
uploaded PDFs are removed from the uploads folder after processing, but the
generated PDF and the text backup are written to the outputs folder and are
not removed — they remain on disk after the request (and the download route
deliberately performs no cleanup either). -/
theorem upload_cleanup_amended (secure_filename : String → String) (oracle : Nat → String)
    (parse : String → Option Json) (dumps0 dumpsI : Json → String)
    (env : Option String) (fresh_sid fresh_csrf : String)
    (sess : Session) (disk : List (String × String)) (req : UploadRequest)
    (h : (upload secure_filename oracle parse dumps0 dumpsI env fresh_sid fresh_csrf
        sess disk req).status = 200) :
    (∀ p, Ev.saveUpload p ∈ (upload secure_filename oracle parse dumps0 dumpsI env
        fresh_sid fresh_csrf sess disk req).events →
      diskLookup (upload secure_filename oracle parse dumps0 dumpsI env fresh_sid
        fresh_csrf sess disk req).disk p = none) ∧
    (∃ text,
      diskLookup (upload secure_filename oracle parse dumps0 dumpsI env fresh_sid
          fresh_csrf sess disk req).disk
        ("outputs/" ++ (sess.session_id.getD fresh_sid ++ "_bilancio.pdf")) = some text ∧
      diskLookup (upload secure_filename oracle parse dumps0 dumpsI env fresh_sid
          fresh_csrf sess disk req).disk
        ("outputs/" ++ (sess.session_id.getD fresh_sid) ++ "_bilancio.txt") = some text ∧
      (upload secure_filename oracle parse dumps0 dumpsI env fresh_sid fresh_csrf
          sess disk req).session.output_file =
        some (sess.session_id.getD fresh_sid ++ "_bilancio.pdf")) := by
  simp only [upload] at h ⊢
  split at h
  · simp at h
  · next hcsrf =>
    split at h
    · simp at h
    · next files heqf =>
      split at h
      · simp at h
      · next hcnt =>
        split at h
        · simp at h
        · next hmax =>
          split at h
          · simp at h
          · next hlrok =>
            split at h
            · simp at h
            · next henv =>
              split at h
              · simp at h
              · next text heqrun =>
                have e1 : (!validate_csrf_token sess req.csrf_token) = false := by
                  revert hcsrf; cases (!validate_csrf_token sess req.csrf_token) <;> simp
                have e2 : (decide (files.length = 0) ||
                    decide ((files.headD { filename := "", size := 0, content := "" }).filename
                      = "")) = false := by
                  revert hcnt
                  cases (decide (files.length = 0) ||
                    decide ((files.headD { filename := "", size := 0, content := "" }).filename
                      = "")) <;> simp
                have e4 : (!(uploadLoop secure_filename (sess.session_id.getD fresh_sid)
                    files disk [] ([Ev.checkCsrf] ++ [Ev.checkFilesPresent] ++
                      [Ev.checkCount])).ok) = false := by
                  revert hlrok
                  cases (uploadLoop secure_filename (sess.session_id.getD fresh_sid)
                    files disk [] ([Ev.checkCsrf] ++ [Ev.checkFilesPresent] ++
                      [Ev.checkCount])).ok <;> simp
                have e5 : (!pyTruthyStr env) = false := by
                  revert henv; cases pyTruthyStr env <;> simp
                simp only [e1, Bool.false_eq_true, if_false, heqf, e2, hmax, e4, e5, heqrun]
                have hok : (uploadLoop secure_filename (sess.session_id.getD fresh_sid)
                    files disk [] ([Ev.checkCsrf] ++ [Ev.checkFilesPresent] ++
                      [Ev.checkCount])).ok = true := by
                  revert e4
                  cases (uploadLoop secure_filename (sess.session_id.getD fresh_sid)
                    files disk [] ([Ev.checkCsrf] ++ [Ev.checkFilesPresent] ++
                      [Ev.checkCount])).ok <;> simp
                obtain ⟨hev, hsv⟩ := uploadLoop_ok_trace secure_filename
                  (sess.session_id.getD fresh_sid) files disk []
                  ([Ev.checkCsrf] ++ [Ev.checkFilesPresent] ++ [Ev.checkCount]) hok
                constructor
                · intro p hp
                  rcases cleanupLoop_events_mem _ _ _ _ hp with hin | ⟨q, hq⟩
                  · rw [hev] at hin
                    have hpin : p ∈ files.map (savePathOf secure_filename
                        (sess.session_id.getD fresh_sid)) := by
                      simp at hin
                      obtain ⟨f, hf, hp2⟩ := hin
                      exact List.mem_map.mpr ⟨f, hf, hp2.symm⟩
                    apply cleanupLoop_removes
                    rw [hsv]
                    simpa using hpin
                  · cases hq
                · refine ⟨text, ?_, ?_, by trivial⟩
                  · rw [cleanupLoop_preserves _ _ _ _ ?_]
                    · rw [diskLookup_diskWrite_other _ _ _ _ ?_,
                        diskLookup_diskWrite_self]
                      rw [string_append_assoc]
                      intro hcon
                      have h7 := string_append_left_cancel hcon
                      have h8 := string_append_left_cancel h7
                      exact absurd h8 (by decide)
                    · intro q hq
                      rw [hsv] at hq
                      rcases uploadLoop_saved_shape secure_filename
                          (sess.session_id.getD fresh_sid) files disk []
                          ([Ev.checkCsrf] ++ [Ev.checkFilesPresent] ++ [Ev.checkCount]) q
                          (by rw [hsv]; exact hq) with hin | ⟨t2, ht2⟩
                      · simp at hin
                      · rw [ht2]
                        exact uploads_ne_outputs _ _
                  · rw [cleanupLoop_preserves _ _ _ _ ?_]
                    · exact diskLookup_diskWrite_self _ _ _
                    · intro q hq
                      rcases uploadLoop_saved_shape secure_filename
                          (sess.session_id.getD fresh_sid) files disk []
                          ([Ev.checkCsrf] ++ [Ev.checkFilesPresent] ++ [Ev.checkCount]) q
                          hq with hin | ⟨t2, ht2⟩
                      · simp at hin
                      · rw [ht2, string_append_assoc]
                        exact uploads_ne_outputs _ _

/-- Witness for the amended C3 at a concrete successful run. -/
theorem upload_cleanup_amended_witness :
    (upload secureW oracleW parseW dumpsW dumpsW (some "key") "FSID" "tok2" sessW [] reqW).status = 200 ∧
    ((∀ p, Ev.saveUpload p ∈ (upload secureW oracleW parseW dumpsW dumpsW (some "key") "FSID" "tok2" sessW [] reqW).events →
      diskLookup (upload secureW oracleW parseW dumpsW dumpsW (some "key") "FSID" "tok2" sessW [] reqW).disk p = none) ∧
    (∃ text,
      diskLookup (upload secureW oracleW parseW dumpsW dumpsW (some "key") "FSID" "tok2" sessW [] reqW).disk
        ("outputs/" ++ (sessW.session_id.getD "FSID" ++ "_bilancio.pdf")) = some text ∧
      diskLookup (upload secureW oracleW parseW dumpsW dumpsW (some "key") "FSID" "tok2" sessW [] reqW).disk
        ("outputs/" ++ sessW.session_id.getD "FSID" ++ "_bilancio.txt") = some text ∧
      (upload secureW oracleW parseW dumpsW dumpsW (some "key") "FSID" "tok2" sessW [] reqW).session.output_file =
        some (sessW.session_id.getD "FSID" ++ "_bilancio.pdf"))) :=
  ⟨rfl, upload_cleanup_amended secureW oracleW parseW dumpsW dumpsW (some "key") "FSID"
    "tok2" sessW [] reqW rfl⟩

/-- Claim C7 counterexample: on a successful two-file upload the claimed
phase order "all of file-type/size validation, then persisting every file"
fails — the first file is saved before the second file's type is validated
(the route interleaves per-file validation and saving). -/
theorem upload_interleaves_validation :
    (upload secureW oracleW parseW dumpsW dumpsW (some "key") "FSID" "tok2" sessW [] reqW2).status = 200 ∧
    checksPrecedeSaves (upload secureW oracleW parseW dumpsW dumpsW (some "key") "FSID" "tok2" sessW [] reqW2).events = false :=
  ⟨rfl, rfl⟩

/-- Claim C7 (amended): for every successful upload request (with distinct
saved paths), the route performs, in order: the CSRF check, the
files-present check, the file-count check, then for each uploaded file in
order its type validation, its size validation and its saving, then the API
configuration check, the pipeline invocation, writing the generated PDF,
writing the text backup, storing the output filename in the session,
regenerating the CSRF token, and only then deleting the uploaded files; the
response carries the download link of the generated PDF. -/
theorem upload_success_trace (secure_filename : String → String) (oracle : Nat → String)
    (parse : String → Option Json) (dumps0 dumpsI : Json → String)
    (env : Option String) (fresh_sid fresh_csrf : String)
    (sess : Session) (disk : List (String × String)) (req : UploadRequest)
    (files : List UpFile) (hf : req.files = some files)
    (hnd : (files.map (savePathOf secure_filename (sess.session_id.getD fresh_sid))).Nodup)
    (h : (upload secure_filename oracle parse dumps0 dumpsI env fresh_sid fresh_csrf
        sess disk req).status = 200) :
    (upload secure_filename oracle parse dumps0 dumpsI env fresh_sid fresh_csrf
        sess disk req).events =
      [Ev.checkCsrf, Ev.checkFilesPresent, Ev.checkCount] ++
      files.flatMap (fun f => [Ev.checkType f.filename, Ev.checkSize f.filename,
        Ev.saveUpload (savePathOf secure_filename (sess.session_id.getD fresh_sid) f)]) ++
      [Ev.checkApiKey, Ev.pipelineCall,
       Ev.writePdf ("outputs/" ++ (sess.session_id.getD fresh_sid ++ "_bilancio.pdf")),
       Ev.writeTxt ("outputs/" ++ sess.session_id.getD fresh_sid ++ "_bilancio.txt"),
       Ev.storeOutputFile, Ev.regenCsrf] ++
      (files.map (savePathOf secure_filename (sess.session_id.getD fresh_sid))).map
        Ev.removeUpload ∧
    (upload secure_filename oracle parse dumps0 dumpsI env fresh_sid fresh_csrf
        sess disk req).downloadUrl =
      some ("/download/" ++ (sess.session_id.getD fresh_sid ++ "_bilancio.pdf")) := by
  simp only [upload] at h ⊢
  split at h
  · simp at h
  · next hcsrf =>
    split at h
    · simp at h
    · next files2 heqf =>
      rw [hf] at heqf
      cases heqf
      split at h
      · simp at h
      · next hcnt =>
        split at h
        · simp at h
        · next hmax =>
          split at h
          · simp at h
          · next hlrok =>
            split at h
            · simp at h
            · next henv =>
              split at h
              · simp at h
              · next text heqrun =>
                have e1 : (!validate_csrf_token sess req.csrf_token) = false := by
                  revert hcsrf; cases (!validate_csrf_token sess req.csrf_token) <;> simp
                have e2 : (decide (files.length = 0) ||
                    decide ((files.headD { filename := "", size := 0, content := "" }).filename
                      = "")) = false := by
                  revert hcnt
                  cases (decide (files.length = 0) ||
                    decide ((files.headD { filename := "", size := 0, content := "" }).filename
                      = "")) <;> simp
                have hok : (uploadLoop secure_filename (sess.session_id.getD fresh_sid)
                    files disk [] ([Ev.checkCsrf] ++ [Ev.checkFilesPresent] ++
                      [Ev.checkCount])).ok = true := by
                  revert hlrok
                  cases (uploadLoop secure_filename (sess.session_id.getD fresh_sid)
                    files disk [] ([Ev.checkCsrf] ++ [Ev.checkFilesPresent] ++
                      [Ev.checkCount])).ok <;> simp
                have e4 : (!(uploadLoop secure_filename (sess.session_id.getD fresh_sid)
                    files disk [] ([Ev.checkCsrf] ++ [Ev.checkFilesPresent] ++
                      [Ev.checkCount])).ok) = false := by rw [hok]; rfl
                have e5 : (!pyTruthyStr env) = false := by
                  revert henv; cases pyTruthyStr env <;> simp
                simp only [e1, Bool.false_eq_true, if_false, hf, e2, hmax, e4, e5, heqrun]
                obtain ⟨hev, hsv⟩ := uploadLoop_ok_trace secure_filename
                  (sess.session_id.getD fresh_sid) files disk []
                  ([Ev.checkCsrf] ++ [Ev.checkFilesPresent] ++ [Ev.checkCount]) hok
                have hall : ∀ p ∈ (uploadLoop secure_filename (sess.session_id.getD fresh_sid)
                    files disk [] ([Ev.checkCsrf] ++ [Ev.checkFilesPresent] ++
                      [Ev.checkCount])).saved, ∃ c,
                    diskLookup (diskWrite (diskWrite
                      (uploadLoop secure_filename (sess.session_id.getD fresh_sid)
                        files disk [] ([Ev.checkCsrf] ++ [Ev.checkFilesPresent] ++
                          [Ev.checkCount])).disk
                      ("outputs/" ++ (sess.session_id.getD fresh_sid ++ "_bilancio.pdf")) text)
                      ("outputs/" ++ sess.session_id.getD fresh_sid ++ "_bilancio.txt") text)
                      p = some c := by
                  intro p hp
                  obtain ⟨c, hc⟩ := uploadLoop_saved_present secure_filename
                    (sess.session_id.getD fresh_sid) files disk []
                    ([Ev.checkCsrf] ++ [Ev.checkFilesPresent] ++ [Ev.checkCount])
                    (by intro q hq; cases hq) p hp
                  rcases uploadLoop_saved_shape secure_filename
                      (sess.session_id.getD fresh_sid) files disk []
                      ([Ev.checkCsrf] ++ [Ev.checkFilesPresent] ++ [Ev.checkCount]) p hp
                    with hin | ⟨t2, ht2⟩
                  · simp at hin
                  · refine ⟨c, ?_⟩
                    rw [diskLookup_diskWrite_other _ _ _ _ ?_,
                      diskLookup_diskWrite_other _ _ _ _ ?_]
                    · exact hc
                    · rw [ht2]
                      exact fun hcon => uploads_ne_outputs t2 _ hcon.symm
                    · rw [ht2, string_append_assoc]
                      exact fun hcon => uploads_ne_outputs t2 _ hcon.symm
                constructor
                · rw [cleanupLoop_trace _ _ _ (by rw [hsv]; simpa using hnd) hall, hev, hsv]
                  simp [List.append_assoc]
                · trivial

/-- Witness for the amended C7 at a concrete successful two-file run. -/
theorem upload_success_trace_witness :
    (reqW2.files = some files2W ∧
     (files2W.map (savePathOf secureW (sessW.session_id.getD "FSID"))).Nodup ∧
     (upload secureW oracleW parseW dumpsW dumpsW (some "key") "FSID" "tok2" sessW [] reqW2).status = 200) ∧
    ((upload secureW oracleW parseW dumpsW dumpsW (some "key") "FSID" "tok2" sessW [] reqW2).events =
      [Ev.checkCsrf, Ev.checkFilesPresent, Ev.checkCount] ++
      files2W.flatMap (fun f => [Ev.checkType f.filename, Ev.checkSize f.filename,
        Ev.saveUpload (savePathOf secureW (sessW.session_id.getD "FSID") f)]) ++
      [Ev.checkApiKey, Ev.pipelineCall,
       Ev.writePdf ("outputs/" ++ (sessW.session_id.getD "FSID" ++ "_bilancio.pdf")),
       Ev.writeTxt ("outputs/" ++ sessW.session_id.getD "FSID" ++ "_bilancio.txt"),
       Ev.storeOutputFile, Ev.regenCsrf] ++
      (files2W.map (savePathOf secureW (sessW.session_id.getD "FSID"))).map
        Ev.removeUpload ∧
     (upload secureW oracleW parseW dumpsW dumpsW (some "key") "FSID" "tok2" sessW [] reqW2).downloadUrl =
      some ("/download/" ++ (sessW.session_id.getD "FSID" ++ "_bilancio.pdf"))) :=
  ⟨⟨rfl, by decide, rfl⟩,
   upload_success_trace secureW oracleW parseW dumpsW dumpsW (some "key") "FSID" "tok2"
     sessW [] reqW2 files2W rfl (by decide) rfl⟩

/-- Claim C4 counterexample: the line `B) IMMOBILIZZAZIONI` is kept for the
attivo section's table (it matches the `)`-pattern heuristic), yet it is laid
out nowhere: it contains no `€`, so `create_financial_table` produces no row
for it, and it is not in the note section either — refuting "each kept line
is laid out with that section's style". -/
theorem kept_line_not_rendered :
    (parse_financial_data "STATO PATRIMONIALE - ATTIVO\nB) IMMOBILIZZAZIONI").attivo
      = ["B) IMMOBILIZZAZIONI"] ∧
    create_financial_table_rows
      (parse_financial_data "STATO PATRIMONIALE - ATTIVO\nB) IMMOBILIZZAZIONI").attivo
      = [] ∧
    (parse_financial_data "STATO PATRIMONIALE - ATTIVO\nB) IMMOBILIZZAZIONI").note
      = [] := by
  refine ⟨?_, ?_, ?_⟩ <;> decide

/-- Claim C4 (amended): the renderer's classification is exactly as claimed —
walking the lines of the formatted text, the four header substrings switch
the current section, and a stripped non-empty non-header line is kept for the
current section exactly when that section is the note section or the line
contains `€` or one of `)`, `-`, `I)`, `II)`, `III)` (`keptFrom` states this
rule in filter form).  Of the kept lines of a financial section, however,
only those among the first 30 that contain `€` are laid out as rows of the
section's table, split at the first `€` into description and amount. -/
theorem parse_financial_data_classification (text : String) (data : List String) :
    parse_financial_data text =
      { attivo := keptFrom none .attivo (pySplit '\n' text),
        passivo := keptFrom none .passivo (pySplit '\n' text),
        conto_economico := keptFrom none .conto_economico (pySplit '\n' text),
        note := keptFrom none .note (pySplit '\n' text) } ∧
    create_financial_table_rows data =
      ((data.take 30).filter (fun l => strContains l "€")).map rowOfLine := by
  constructor
  · have h := parseLinesAux_keptFrom (pySplit '\n' text) none ⟨[], [], [], []⟩
    simpa [parse_financial_data] using h
  · exact create_financial_table_rows_eq data

end DocumentOcr
